import Mathlib

/-!
# CameraCalibration: `MainWindow` (src/CameraCalibration/src/mainwindow.cpp)

A shallow embedding of the slots and helpers of `MainWindow` and proofs about them.

Modelling conventions.

* The object is a record `State`; every member function is a function on `State`.
  A scene is represented by its foreground image (`none` before the first
  `setFgImage`); `mCameraThread` and `mCameraUndist` are pointers that may be
  null (`Option`).
* `double`/`float` values are exact rationals (`ℚ`); `int` values are `Int`, the
  frame counter wraps at 32 bits (`wrap32`).
* Classes whose code is not in `mainwindow.cpp` (`QCameraUndistort`, `CameraThread`)
  and the Qt text/number conversions for `double` are parameters, bundled in `Ext`.
  `QString::toInt` is modelled concretely (`toInt`) after its documented behaviour.
* Answers of the operating system (the output of `pgrep`, whether the pipeline
  process started) are explicit arguments.
* Effects on the outside world and the accesses to the slots of `mDistorsion` are
  appended to `State.trace`.
* Undefined behaviour that stops the handler (division by zero, null pointer) is a
  `Fault` reported in an `Outcome`, together with the state reached.
* An access past the end of the buffer of `mDistorsion` does not stop the code; the
  first one is recorded in `State.ubFault`. A read past the end yields whatever the
  memory holds (`Ext.pastEnd`), a write past the end leaves the vector as it is.
-/

namespace MainWindow

/-! ## Machine integers and Qt conversions -/

/-- Two's complement reduction of an integer to the range of a 32-bit `int`. -/
def wrap32 (x : Int) : Int := (x + 2147483648) % 4294967296 - 2147483648

/-- White space as skipped by the C-locale number parser. -/
def isSpace (c : Char) : Bool :=
  c == ' ' || c == '\t' || c == '\n' || c == '\r' || c.toNat == 11 || c.toNat == 12

/-- Value of a string of ASCII decimal digits, `none` if another character occurs. -/
def digitsVal : List Char → Nat → Option Nat
  | [], acc => some acc
  | c :: cs, acc => if c.isDigit then digitsVal cs (acc * 10 + (c.toNat - 48)) else none

/-- Base-10 integer syntax of `QString::toInt`: surrounding white space, an optional
sign, at least one digit, nothing else, and a value that fits a 32-bit `int`. -/
def parseInt (cs : List Char) : Option Int :=
  let body := ((cs.dropWhile isSpace).reverse.dropWhile isSpace).reverse
  let signed : Bool × List Char :=
    match body with
    | '-' :: ds => (true, ds)
    | '+' :: ds => (false, ds)
    | ds => (false, ds)
  if signed.2.isEmpty then none else
  match digitsVal signed.2 0 with
  | none => none
  | some v =>
    let i : Int := if signed.1 then - (v : Int) else v
    if -2147483648 ≤ i ∧ i ≤ 2147483647 then some i else none

/-- Model of `QString::toInt()`: the parsed value, and 0 when the conversion fails. -/
def toInt (t : String) : Int := (parseInt t.data).getD 0

/-- Conversion `static_cast<int>` of a `double`: truncation toward zero. -/
def truncToInt (q : ℚ) : Int := Int.tdiv q.num q.den

/-! ## Data -/

/-- A frame (`cv::Mat`): dimensions and pixel data. -/
structure Mat where
  cols : Int
  rows : Int
  data : List Nat
deriving DecidableEq, Repr

/-- Model of `cv::Mat::empty()`: no data or no elements. -/
def Mat.empty (m : Mat) : Bool := m.data.isEmpty || m.rows * m.cols == 0

/-- The 3x3 `CV_64F` matrix `mIntrinsic`; `mRC` is `ptr<double>(R)[C]`. -/
structure Mat3x3 where
  m00 : ℚ
  m01 : ℚ
  m02 : ℚ
  m10 : ℚ
  m11 : ℚ
  m12 : ℚ
  m20 : ℚ
  m21 : ℚ
  m22 : ℚ
deriving DecidableEq, Repr

/-- Matrix `cv::Mat(3, 3, CV_64F, cv::Scalar::all(0.0f))`. -/
def Mat3x3.zeros : Mat3x3 := ⟨0, 0, 0, 0, 0, 0, 0, 0, 0⟩

/-- Type `cv::Size`. -/
structure Size where
  width : Int
  height : Int
deriving DecidableEq, Repr

/-- Arguments of the `QChessboardElab` constructor that are values. -/
structure QChessboardElab where
  frame : Mat
  cbSize : Size
  cbSizeMm : ℚ
deriving DecidableEq, Repr

/-- The three graphics views. -/
inductive View where
  | raw
  | checkboard
  | undistorted
deriving DecidableEq, Repr

/-- Signals connected to slots of the window. -/
inductive Signal where
  | cameraConnected
  | cameraDisconnected
  | newImage
  | newCameraParams
deriving DecidableEq, Repr

/-- Parameters substituted into the `gst-launch-1.0` command line. -/
structure GstLaunch where
  device : String
  width : Int
  height : Int
  fps : Int
deriving DecidableEq, Repr

/-- Observable actions, in the order the code performs them. -/
inductive Event where
  | fitInView (v : View) (w h : Int)
  | tryStart (task : QChessboardElab)
  | distRead (slot : Nat)
  | distWrite (slot : Nat)
  | pkill
  | pgrep
  | qDebug (msg : String)
  | gstStart (cmd : GstLaunch)
  | newCameraThread (fps : ℚ)
  | deleteCameraThread
  | connectSig (sig : Signal)
  | disconnectSig (sig : Signal)
  | threadStart
  | newCameraUndist
  | deleteCameraUndist
deriving DecidableEq, Repr

/-- Undefined behaviour met by the code. -/
inductive Fault where
  | divByZero
  | remOverflow
  | nullCameraUndist
  | nullCameraThread
  | outOfBounds (slot : Nat)
deriving DecidableEq, Repr

/-- A `QLineEdit`. -/
structure QLineEdit where
  text : String
  enabled : Bool
  visible : Bool
  styleSheet : String
deriving DecidableEq, Repr

/-- A checkable `QPushButton`. -/
structure QPushButton where
  text : String
  checked : Bool
deriving DecidableEq, Repr

/-- The widgets of `Ui::MainWindow` that the modelled functions touch. -/
structure Ui where
  comboBox_camera : String
  lineEdit_camera_w : QLineEdit
  lineEdit_camera_h : QLineEdit
  lineEdit_camera_fps : QLineEdit
  lineEdit_cb_cols : QLineEdit
  lineEdit_cb_rows : QLineEdit
  lineEdit_cb_mm : QLineEdit
  checkBox_fisheye : Bool
  pushButton_calibrate : QPushButton
  pushButton_camera_connect_disconnect : QPushButton
  lineEdit_fx : QLineEdit
  lineEdit_fy : QLineEdit
  lineEdit_cx : QLineEdit
  lineEdit_cy : QLineEdit
  lineEdit_scale : QLineEdit
  lineEdit_K_01 : QLineEdit
  lineEdit_K_10 : QLineEdit
  lineEdit_K_20 : QLineEdit
  lineEdit_K_21 : QLineEdit
  lineEdit_k1 : QLineEdit
  lineEdit_k2 : QLineEdit
  lineEdit_k3 : QLineEdit
  lineEdit_k4 : QLineEdit
  lineEdit_k5 : QLineEdit
  lineEdit_k6 : QLineEdit
  lineEdit_p1 : QLineEdit
  lineEdit_p2 : QLineEdit
  lineEdit_calib_reproj_err : QLineEdit
  progressBar_camBuffer : Int
deriving DecidableEq, Repr

/-- The members of `MainWindow` (and the statics of `onNewImage`), with the trace. -/
structure State (U T : Type) where
  ui : Ui
  mCameraThread : Option T
  mCameraUndist : Option U
  mCameraSceneRaw : Option Mat
  mCameraSceneCheckboard : Option Mat
  mCameraSceneUndistorted : Option Mat
  mCameraConnected : Bool
  mElabPoolMaxThreadCount : Nat
  mIntrinsic : Mat3x3
  mDistorsion : List ℚ
  mCamDev : String
  mSrcWidth : Int
  mSrcHeight : Int
  mSrcFps : Int
  mCbSize : Size
  mCbSizeMm : ℚ
  mGstProcess : Option GstLaunch
  mCalibInfo : String
  frmCnt : Int
  frameW : Int
  frameH : Int
  trace : List Event
  ubFault : Option Fault

/-- What a handler that may hit undefined behaviour leaves behind. -/
structure Outcome (U T : Type) where
  state : State U T
  fault : Option Fault

/-- Code outside `mainwindow.cpp`, taken as given: `QCameraUndistort` (type `U`),
`CameraThread` (type `T`) and Qt conversions between text and `double`. -/
structure Ext (U T : Type) where
  toDouble : String → ℚ
  toFloat : String → ℚ
  arg : ℚ → String
  newCameraUndist : Size → Size → ℚ → Bool → U
  undistort : U → Mat → U × Mat
  getCameraParams : U → Mat3x3 → List ℚ → Mat3x3 × List ℚ
  setCameraParams : U → Mat3x3 → List ℚ → Bool → U
  newCameraThread : ℚ → T
  start : T → T
  getBufPerc : T → ℚ
  pastEnd : Nat → ℚ

variable {U T : Type}

/-- Events appended to the trace between state `s` and a later state `s1`. -/
def newEvents (s s1 : State U T) : List Event := s1.trace.drop s.trace.length

/-- Tasks handed to `mElabPool.tryStart`, in order. -/
def submitted : List Event → List QChessboardElab
  | [] => []
  | Event.tryStart t :: es => t :: submitted es
  | _ :: es => submitted es

/-- Slots of `mDistorsion` read, in order. -/
def distReads : List Event → List Nat
  | [] => []
  | Event.distRead i :: es => i :: distReads es
  | _ :: es => distReads es

/-- Slots of `mDistorsion` written, in order. -/
def distWrites : List Event → List Nat
  | [] => []
  | Event.distWrite i :: es => i :: distWrites es
  | _ :: es => distWrites es

/-- Whether an event creates, connects, starts or deletes a `CameraThread`. -/
def Event.isThread : Event → Bool
  | Event.newCameraThread _ => true
  | Event.deleteCameraThread => true
  | Event.connectSig Signal.cameraConnected => true
  | Event.connectSig Signal.cameraDisconnected => true
  | Event.connectSig Signal.newImage => true
  | Event.disconnectSig Signal.cameraConnected => true
  | Event.disconnectSig Signal.cameraDisconnected => true
  | Event.disconnectSig Signal.newImage => true
  | Event.threadStart => true
  | _ => false

/-- Whether an event launches the pipeline process. -/
def Event.isGstStart : Event → Bool
  | Event.gstStart _ => true
  | _ => false

/-- Append events to the trace. -/
def State.emit (s : State U T) (es : List Event) : State U T :=
  { s with trace := s.trace ++ es }

/-! ## killGstLaunch -/

/-- The `do ... while( !done )` loop of `killGstLaunch`, entered with `count < 10`.
`checks i` tells whether the output of the `pgrep` of round `i` (from 0) was empty.
Returns the result, the final `count` and the trace. -/
def killLoop (checks : Nat → Bool) (count : Nat) (h : count < 10) (tr : List Event) :
    Bool × Nat × List Event :=
  let tr1 := tr ++ [Event.pkill, Event.pgrep]
  let done := checks count
  let count1 := count + 1
  if h10 : count1 = 10 then
    (false, count1, tr1 ++ [Event.qDebug "Cannot kill gst-launch active process(es)"])
  else if !done then killLoop checks count1 (by omega) tr1
  else (true, count1, tr1)
termination_by 10 - count

/-- Member function `MainWindow::killGstLaunch`. -/
def killGstLaunch (checks : Nat → Bool) (s : State U T) : Bool × State U T :=
  let r := killLoop checks 0 (by decide) s.trace
  (r.1, { s with trace := r.2.2 })

/-! ## Starting and stopping the camera -/

/-- Member function `MainWindow::startGstProcess`; `started` is the answer of
`mGstProcess.waitForStarted( 10000 )`. -/
def startGstProcess (started : Bool) (s : State U T) : Bool × State U T :=
  if s.mCamDev.length == 0 then (false, s)
  else
    let cmd : GstLaunch := ⟨s.mCamDev, s.mSrcWidth, s.mSrcHeight, s.mSrcFps⟩
    let s1 : State U T :=
      { s with
        trace := s.trace ++ [Event.qDebug "Starting pipeline", Event.gstStart cmd]
        mGstProcess := some cmd }
    if !started then (false, s1) else (true, s1)

/-- Member function `MainWindow::startCamera`. -/
def startCamera (E : Ext U T) (checks : Nat → Bool) (started : Bool) (s : State U T) :
    Bool × State U T :=
  let k := killGstLaunch checks s
  if !k.1 then (false, k.2)
  else
    let g := startGstProcess started k.2
    if !g.1 then (false, g.2)
    else
      let s1 : State U T :=
        match g.2.mCameraThread with
        | some _ => { g.2.emit [Event.deleteCameraThread] with mCameraThread := none }
        | none => g.2
      let fps := E.toDouble s1.ui.lineEdit_camera_fps.text
      let s2 : State U T :=
        { s1.emit [Event.newCameraThread fps,
                   Event.connectSig Signal.cameraConnected,
                   Event.connectSig Signal.cameraDisconnected,
                   Event.connectSig Signal.newImage,
                   Event.threadStart] with
          mCameraThread := some (E.start (E.newCameraThread fps)) }
      (true, s2)

/-- Member function `MainWindow::stopCamera`. -/
def stopCamera (s : State U T) : State U T :=
  match s.mCameraThread with
  | some _ =>
    { s.emit [Event.disconnectSig Signal.cameraConnected,
              Event.disconnectSig Signal.cameraDisconnected,
              Event.disconnectSig Signal.newImage,
              Event.deleteCameraThread] with
      mCameraThread := none }
  | none => s

/-- Member function `MainWindow::updateCbParams`. -/
def updateCbParams (E : Ext U T) (s : State U T) : State U T :=
  { s with
    mCbSize := ⟨toInt s.ui.lineEdit_cb_cols.text, toInt s.ui.lineEdit_cb_rows.text⟩
    mCbSizeMm := E.toFloat s.ui.lineEdit_cb_mm.text }

/-! ## Camera parameters and their fields -/

/-- Model of `QLineEdit::setText`. -/
def QLineEdit.setText (w : QLineEdit) (t : String) : QLineEdit := { w with text := t }

/-- Model of `QWidget::setVisible`. -/
def QLineEdit.setVisible (w : QLineEdit) (b : Bool) : QLineEdit := { w with visible := b }

/-- Model of `QWidget::setEnabled`. -/
def QLineEdit.setEnabled (w : QLineEdit) (b : Bool) : QLineEdit := { w with enabled := b }

/-- Model of `QWidget::setStyleSheet`. -/
def QLineEdit.setStyleSheet (w : QLineEdit) (t : String) : QLineEdit :=
  { w with styleSheet := t }

/-- Record an undefined access; the first one recorded is kept. -/
def State.flag (s : State U T) (f : Fault) : State U T :=
  { s with ubFault := match s.ubFault with
                      | some g => some g
                      | none => some f }

/-- Read `mDistorsion.ptr<double>(i)[0]`. Row `i` exists when `i` is below the number
of rows; a read past the end is flagged and yields `E.pastEnd i`. -/
def readD (E : Ext U T) (s : State U T) (i : Nat) : ℚ × State U T :=
  match s.mDistorsion.get? i with
  | some v => (v, s.emit [Event.distRead i])
  | none => (E.pastEnd i, (s.emit [Event.distRead i]).flag (Fault.outOfBounds i))

/-- Assign `mDistorsion.ptr<double>(i)[0] = v`. A write past the end is flagged and
leaves the vector as it is. -/
def writeD (s : State U T) (i : Nat) (v : ℚ) : State U T :=
  if i < s.mDistorsion.length then
    { s with mDistorsion := s.mDistorsion.set i v, trace := s.trace ++ [Event.distWrite i] }
  else (s.emit [Event.distWrite i]).flag (Fault.outOfBounds i)

/-- The statement `cout << mDistorsion` and the hand-over of `mDistorsion` to
`setCameraParams`: every row of the vector is read. -/
def readAllD (s : State U T) : State U T :=
  s.emit ((List.range s.mDistorsion.length).map Event.distRead)

/-- Member function `MainWindow::updateParamGUI`. -/
def updateParamGUI (E : Ext U T) (s : State U T) : State U T :=
  let fx := s.mIntrinsic.m00
  let fy := s.mIntrinsic.m11
  let cx := s.mIntrinsic.m02
  let cy := s.mIntrinsic.m12
  let scale := s.mIntrinsic.m22
  let s0 : State U T :=
    { s with ui :=
      { s.ui with
        lineEdit_fx := s.ui.lineEdit_fx.setText (E.arg fx)
        lineEdit_fy := s.ui.lineEdit_fy.setText (E.arg fy)
        lineEdit_cx := s.ui.lineEdit_cx.setText (E.arg cx)
        lineEdit_cy := s.ui.lineEdit_cy.setText (E.arg cy)
        lineEdit_scale := s.ui.lineEdit_scale.setText (E.arg scale) } }
  let r1 := readD E s0 0
  let r2 := readD E r1.2 1
  let k1 := r1.1
  let k2 := r2.1
  if r2.2.ui.checkBox_fisheye then
    let r3 := readD E r2.2 2
    let r4 := readD E r3.2 3
    let k3 := r3.1
    let k4 := r4.1
    let s1 := r4.2
    { s1 with ui :=
      { s1.ui with
        lineEdit_k1 := s1.ui.lineEdit_k1.setText (E.arg k1)
        lineEdit_k2 := s1.ui.lineEdit_k2.setText (E.arg k2)
        lineEdit_k3 := s1.ui.lineEdit_k3.setText (E.arg k3)
        lineEdit_k4 := s1.ui.lineEdit_k4.setText (E.arg k4)
        lineEdit_k5 := s1.ui.lineEdit_k5.setVisible false
        lineEdit_k6 := s1.ui.lineEdit_k6.setVisible false
        lineEdit_p1 := s1.ui.lineEdit_p1.setVisible false
        lineEdit_p2 := s1.ui.lineEdit_p2.setVisible false } }
  else
    let r3 := readD E r2.2 2
    let r4 := readD E r3.2 3
    let r5 := readD E r4.2 4
    let r6 := readD E r5.2 5
    let r7 := readD E r6.2 6
    let r8 := readD E r7.2 7
    let p1 := r3.1
    let p2 := r4.1
    let k3 := r5.1
    let k4 := r6.1
    let k5 := r7.1
    let k6 := r8.1
    let s1 := r8.2
    { s1 with ui :=
      { s1.ui with
        lineEdit_k1 := s1.ui.lineEdit_k1.setText (E.arg k1)
        lineEdit_k2 := s1.ui.lineEdit_k2.setText (E.arg k2)
        lineEdit_p1 := (s1.ui.lineEdit_p1.setText (E.arg p1)).setVisible true
        lineEdit_p2 := (s1.ui.lineEdit_p2.setText (E.arg p2)).setVisible true
        lineEdit_k3 := s1.ui.lineEdit_k3.setText (E.arg k3)
        lineEdit_k4 := s1.ui.lineEdit_k4.setText (E.arg k4)
        lineEdit_k5 := (s1.ui.lineEdit_k5.setText (E.arg k5)).setVisible true
        lineEdit_k6 := (s1.ui.lineEdit_k6.setText (E.arg k6)).setVisible true } }

/-- Member function `MainWindow::setNewCameraParams`. -/
def setNewCameraParams (E : Ext U T) (s : State U T) : State U T :=
  let K : Mat3x3 :=
    { m00 := E.toDouble s.ui.lineEdit_fx.text
      m01 := E.toDouble s.ui.lineEdit_K_01.text
      m02 := E.toDouble s.ui.lineEdit_cx.text
      m10 := E.toDouble s.ui.lineEdit_K_10.text
      m11 := E.toDouble s.ui.lineEdit_fy.text
      m12 := E.toDouble s.ui.lineEdit_cy.text
      m20 := E.toDouble s.ui.lineEdit_K_20.text
      m21 := E.toDouble s.ui.lineEdit_K_21.text
      m22 := E.toDouble s.ui.lineEdit_scale.text }
  let s0 : State U T := { s with mIntrinsic := K }
  let s1 := writeD s0 0 (E.toDouble s0.ui.lineEdit_k1.text)
  let s2 := writeD s1 1 (E.toDouble s1.ui.lineEdit_k2.text)
  let s3 : State U T :=
    if s2.ui.checkBox_fisheye then
      let a := writeD s2 2 (E.toDouble s2.ui.lineEdit_k3.text)
      let b := writeD a 3 (E.toDouble a.ui.lineEdit_k4.text)
      let c := writeD b 4 0
      let d := writeD c 5 0
      let e := writeD d 6 0
      writeD e 7 0
    else
      let a := writeD s2 2 (E.toDouble s2.ui.lineEdit_p1.text)
      let b := writeD a 3 (E.toDouble a.ui.lineEdit_p2.text)
      let c := writeD b 4 (E.toDouble b.ui.lineEdit_k3.text)
      let d := writeD c 5 (E.toDouble c.ui.lineEdit_k4.text)
      let e := writeD d 6 (E.toDouble d.ui.lineEdit_k5.text)
      writeD e 7 (E.toDouble e.ui.lineEdit_k6.text)
  let s4 := readAllD s3
  match s4.mCameraUndist with
  | some u =>
    { readAllD s4 with
      mCameraUndist :=
        some (E.setCameraParams u s4.mIntrinsic s4.mDistorsion s4.ui.checkBox_fisheye) }
  | none => s4

/-- Member function `MainWindow::on_checkBox_fisheye_clicked`. -/
def on_checkBox_fisheye_clicked (E : Ext U T) (s : State U T) : State U T :=
  updateParamGUI E (setNewCameraParams E s)

/-- Style sheet of the reprojection-error field for an error of at most 0.5. -/
def styleGood : String := "QLineEdit \x7b background: rgb(50, 250, 50);\x7d"

/-- Style sheet of the reprojection-error field for an error in (0.5, 1.0]. -/
def styleMarginal : String := "QLineEdit \x7b background: rgb(250, 250, 50);\x7d"

/-- Style sheet of the reprojection-error field for the remaining errors. -/
def stylePoor : String := "QLineEdit \x7b background: rgb(250, 50, 50);\x7d"

/-- Member function `MainWindow::onNewCameraParams`. -/
def onNewCameraParams (E : Ext U T) (s : State U T) (K : Mat3x3) (D : List ℚ)
    (refining : Bool) (calibReprojErr : ℚ) : State U T :=
  let s1 : State U T := { s with mIntrinsic := K, mDistorsion := D }
  let s2 : State U T :=
    if refining then { s1 with mCalibInfo := "Refining existing Camera parameters" }
    else { s1 with mCalibInfo := "Estimating new Camera parameters" }
  let s3 : State U T :=
    { s2 with ui :=
      { s2.ui with
        lineEdit_calib_reproj_err :=
          s2.ui.lineEdit_calib_reproj_err.setText (E.arg calibReprojErr) } }
  let style : String :=
    if calibReprojErr ≤ 0.5 then styleGood
    else if calibReprojErr ≤ 1.0 ∧ calibReprojErr > 0.5 then styleMarginal
    else stylePoor
  let s4 : State U T :=
    { s3 with ui :=
      { s3.ui with
        lineEdit_calib_reproj_err := s3.ui.lineEdit_calib_reproj_err.setStyleSheet style } }
  updateParamGUI E s4

/-! ## Frames -/

/-- Lines 247-262 of `MainWindow::onNewImage`: rectify, display, report the buffer. -/
def onNewImageDisplay (E : Ext U T) (s : State U T) (frame : Mat) : Outcome U T :=
  match s.mCameraUndist with
  | none => ⟨s, some Fault.nullCameraUndist⟩
  | some u =>
    let r := E.undistort u frame
    let rectified := r.2
    let s1 : State U T := { s with mCameraUndist := some r.1 }
    let s2 : State U T :=
      if rectified.empty then { s1 with mCameraSceneUndistorted := some frame }
      else { s1 with mCameraSceneUndistorted := some rectified }
    match s2.mCameraThread with
    | none => ⟨s2, some Fault.nullCameraThread⟩
    | some t =>
      let perc := E.getBufPerc t
      let percInt := truncToInt (perc * 100)
      ⟨{ s2 with ui := { s2.ui with progressBar_camBuffer := percInt } }, none⟩

/-- Lines 222-239 of `MainWindow::onNewImage`: refit the views when the frame size
changed, show the raw frame, count the frame. -/
def onNewImageCount (s : State U T) (frame : Mat) : State U T :=
  let s1 : State U T :=
    if s.frameW ≠ frame.cols ∨ s.frameH ≠ frame.rows then
      { s.emit [Event.fitInView View.raw frame.cols frame.rows,
                Event.fitInView View.checkboard frame.cols frame.rows,
                Event.fitInView View.undistorted frame.cols frame.rows] with
        frameW := frame.cols
        frameH := frame.rows }
    else s
  let s2 : State U T := { s1 with mCameraSceneRaw := some frame }
  { s2 with frmCnt := wrap32 (s2.frmCnt + 1) }

/-- Member function `MainWindow::onNewImage`. -/
def onNewImage (E : Ext U T) (s : State U T) (frame : Mat) : Outcome U T :=
  let s3 := onNewImageCount s frame
  let fps := toInt s3.ui.lineEdit_camera_fps.text
  if s3.ui.pushButton_calibrate.checked then
    if fps = 0 then ⟨s3, some Fault.divByZero⟩
    else if s3.frmCnt = -2147483648 ∧ fps = -1 then ⟨s3, some Fault.remOverflow⟩
    else if Int.tmod s3.frmCnt fps = 0 then
      let elab1 : QChessboardElab := ⟨frame, s3.mCbSize, s3.mCbSizeMm⟩
      onNewImageDisplay E (s3.emit [Event.tryStart elab1]) frame
    else onNewImageDisplay E s3 frame
  else onNewImageDisplay E s3 frame

/-- The frames of a stream delivered to `onNewImage` one after the other; a fault
ends the run. -/
def feed (E : Ext U T) (s : State U T) : List Mat → Outcome U T
  | [] => ⟨s, none⟩
  | f :: fs =>
    let o := onNewImage E s f
    match o.fault with
    | some _ => o
    | none => feed E o.state fs

/-! ## Connecting -/

/-- Lines 309-333 of `MainWindow::on_pushButton_camera_connect_disconnect_clicked`:
read the form, replace the undistortion engine, show its parameters. -/
def connectPrepare (E : Ext U T) (s : State U T) : State U T :=
  let s1 : State U T :=
    { s with
      mCamDev := s.ui.comboBox_camera
      mSrcWidth := toInt s.ui.lineEdit_camera_w.text
      mSrcHeight := toInt s.ui.lineEdit_camera_h.text
      mSrcFps := toInt s.ui.lineEdit_camera_fps.text }
  let s2 := updateCbParams E s1
  let s3 : State U T :=
    match s2.mCameraUndist with
    | some _ =>
      { s2.emit [Event.disconnectSig Signal.newCameraParams, Event.deleteCameraUndist] with
        mCameraUndist := none }
    | none => s2
  let fisheye := s3.ui.checkBox_fisheye
  let u := E.newCameraUndist ⟨s3.mSrcWidth, s3.mSrcHeight⟩ s3.mCbSize s3.mCbSizeMm fisheye
  let s4 : State U T :=
    { s3.emit [Event.newCameraUndist, Event.connectSig Signal.newCameraParams] with
      mCameraUndist := some u }
  let kd := E.getCameraParams u s4.mIntrinsic s4.mDistorsion
  let s5 : State U T := { s4 with mIntrinsic := kd.1, mDistorsion := kd.2 }
  updateParamGUI E s5

/-- Member function `MainWindow::on_pushButton_camera_connect_disconnect_clicked`. -/
def on_pushButton_camera_connect_disconnect_clicked (E : Ext U T) (checks : Nat → Bool)
    (started : Bool) (checked : Bool) (s : State U T) : State U T :=
  if checked then
    let s6 := connectPrepare E s
    let r := startCamera E checks started s6
    let s7 := r.2
    if r.1 then
      { s7 with ui :=
        { s7.ui with
          pushButton_camera_connect_disconnect :=
            { s7.ui.pushButton_camera_connect_disconnect with text := "Stop Camera" }
          lineEdit_cb_cols := s7.ui.lineEdit_cb_cols.setEnabled false
          lineEdit_cb_rows := s7.ui.lineEdit_cb_rows.setEnabled false
          lineEdit_cb_mm := s7.ui.lineEdit_cb_mm.setEnabled false } }
    else
      { s7 with ui :=
        { s7.ui with
          pushButton_camera_connect_disconnect := { text := "Start Camera", checked := false }
          lineEdit_cb_cols := s7.ui.lineEdit_cb_cols.setEnabled true
          lineEdit_cb_rows := s7.ui.lineEdit_cb_rows.setEnabled true
          lineEdit_cb_mm := s7.ui.lineEdit_cb_mm.setEnabled true } }
  else
    let s1 : State U T :=
      { s with ui :=
        { s.ui with
          pushButton_camera_connect_disconnect :=
            { s.ui.pushButton_camera_connect_disconnect with text := "Start Camera" } } }
    let s2 := stopCamera s1
    { s2 with ui :=
      { s2.ui with
        lineEdit_cb_cols := s2.ui.lineEdit_cb_cols.setEnabled true
        lineEdit_cb_rows := s2.ui.lineEdit_cb_rows.setEnabled true
        lineEdit_cb_mm := s2.ui.lineEdit_cb_mm.setEnabled true } }

/-- What the user sees of the connection: text and check state of the connect button
and whether the three board fields accept input. -/
def affordance (s : State U T) : String × Bool × Bool × Bool × Bool :=
  (s.ui.pushButton_camera_connect_disconnect.text,
   s.ui.pushButton_camera_connect_disconnect.checked,
   s.ui.lineEdit_cb_cols.enabled,
   s.ui.lineEdit_cb_rows.enabled,
   s.ui.lineEdit_cb_mm.enabled)

/-- State `s1` continues `s` with a trace extended by events on which `p` is false. -/
def Extends (p : Event → Bool) (s s1 : State U T) : Prop :=
  ∃ ext, s1.trace = s.trace ++ ext ∧ ∀ e ∈ ext, p e = false

/-! ## Construction -/

/-- Constructor `MainWindow::MainWindow`. `s0` is the object when the constructor body starts
(`s0.ui` as left by `setupUi`); `cameras` are the device names reported by
`QCameraInfo::availableCameras()`. Members the constructor does not assign keep
their value from `s0`. The status-bar labels and the viewports are not represented. -/
def ctor (E : Ext U T) (checks : Nat → Bool) (cameras : List String) (s0 : State U T) :
    State U T :=
  let s1 : State U T :=
    { s0 with
      mCameraThread := none
      mCameraSceneRaw := none
      mCameraSceneCheckboard := none
      mCameraSceneUndistorted := none
      mCameraUndist := none
      frmCnt := 0
      frameW := 0
      frameH := 0
      ubFault := none }
  let s2 := (killGstLaunch checks s1).2
  let s3 : State U T := { s2 with mCameraConnected := false }
  let s4 : State U T := { s3 with ui := { s3.ui with comboBox_camera := cameras.headD "" } }
  let s5 : State U T := { s4 with mElabPoolMaxThreadCount := 3 }
  let K0 := Mat3x3.zeros
  let K1 : Mat3x3 := { K0 with m00 := 884.0 }
  let K2 : Mat3x3 := { K1 with m11 := 884.0 }
  let K3 : Mat3x3 := { K2 with m22 := 1.0 }
  let K4 : Mat3x3 := { K3 with m02 := E.toDouble s5.ui.lineEdit_camera_w.text / 2.0 }
  let K5 : Mat3x3 := { K4 with m12 := E.toDouble s5.ui.lineEdit_camera_h.text / 2.0 }
  { s5 with mIntrinsic := K5, mDistorsion := List.replicate 8 0 }

/-! ## Concrete instances used to evaluate the model -/

/-- An instance of the external code over trivial objects: conversions yield 0, the
undistortion engine has no model and returns an empty frame. -/
def demoExt : Ext Unit Unit where
  toDouble := fun _ => 0
  toFloat := fun _ => 0
  arg := fun _ => ""
  newCameraUndist := fun _ _ _ _ => ()
  undistort := fun _ _ => ((), ⟨0, 0, []⟩)
  getCameraParams := fun _ K D => (K, D)
  setCameraParams := fun _ _ _ _ => ()
  newCameraThread := fun _ => ()
  start := fun _ => ()
  getBufPerc := fun _ => 0
  pastEnd := fun _ => 0

/-- A second instance of the external code: texts that are integers convert to their
value, a number prints as that many strokes, the undistortion engine returns the
frame with its pixels in reverse order. -/
def demoExt2 : Ext Unit Unit where
  toDouble := fun t => (toInt t : ℚ)
  toFloat := fun t => (toInt t : ℚ)
  arg := fun q => String.mk (List.replicate q.num.toNat 'I')
  newCameraUndist := fun _ _ _ _ => ()
  undistort := fun _ f => ((), ⟨f.cols, f.rows, f.data.reverse⟩)
  getCameraParams := fun _ K D => (K, D)
  setCameraParams := fun _ _ _ _ => ()
  newCameraThread := fun _ => ()
  start := fun _ => ()
  getBufPerc := fun _ => 0
  pastEnd := fun _ => 0

/-- A line edit holding `t`. -/
def demoEdit (t : String) : QLineEdit := ⟨t, true, true, ""⟩

/-- A form: camera `/dev/video0`, 640x480 at 30 fps, board 9x6 of 25 mm. -/
def demoUi : Ui where
  comboBox_camera := "/dev/video0"
  lineEdit_camera_w := demoEdit "640"
  lineEdit_camera_h := demoEdit "480"
  lineEdit_camera_fps := demoEdit "30"
  lineEdit_cb_cols := demoEdit "9"
  lineEdit_cb_rows := demoEdit "6"
  lineEdit_cb_mm := demoEdit "25"
  checkBox_fisheye := false
  pushButton_calibrate := ⟨"Calibrate", false⟩
  pushButton_camera_connect_disconnect := ⟨"Start Camera", false⟩
  lineEdit_fx := demoEdit "884"
  lineEdit_fy := demoEdit "884"
  lineEdit_cx := demoEdit "320"
  lineEdit_cy := demoEdit "240"
  lineEdit_scale := demoEdit "1"
  lineEdit_K_01 := demoEdit "0"
  lineEdit_K_10 := demoEdit "0"
  lineEdit_K_20 := demoEdit "0"
  lineEdit_K_21 := demoEdit "0"
  lineEdit_k1 := demoEdit "0"
  lineEdit_k2 := demoEdit "0"
  lineEdit_k3 := demoEdit "0"
  lineEdit_k4 := demoEdit "0"
  lineEdit_k5 := demoEdit "0"
  lineEdit_k6 := demoEdit "0"
  lineEdit_p1 := demoEdit "0"
  lineEdit_p2 := demoEdit "0"
  lineEdit_calib_reproj_err := demoEdit ""
  progressBar_camBuffer := 0

/-- A window with the form `demoUi`, connected objects present, no frame seen yet. -/
def demoState : State Unit Unit where
  ui := demoUi
  mCameraThread := some ()
  mCameraUndist := some ()
  mCameraSceneRaw := none
  mCameraSceneCheckboard := none
  mCameraSceneUndistorted := none
  mCameraConnected := false
  mElabPoolMaxThreadCount := 3
  mIntrinsic := ⟨884, 0, 320, 0, 884, 240, 0, 0, 1⟩
  mDistorsion := [0, 0, 0, 0, 0, 0, 0, 0]
  mCamDev := ""
  mSrcWidth := 0
  mSrcHeight := 0
  mSrcFps := 0
  mCbSize := ⟨0, 0⟩
  mCbSizeMm := 0
  mGstProcess := none
  mCalibInfo := ""
  frmCnt := 0
  frameW := 0
  frameH := 0
  trace := []
  ubFault := none

/-- A 2x2 frame. -/
def demoFrame : Mat := ⟨2, 2, [1, 2, 3, 4]⟩

/-- A window with the fisheye box checked, the fields k1..k4 holding 1..4 and every
slot of the distortion vector holding 9. -/
def demoFisheye2 : State Unit Unit :=
  { demoState with
    ui := { demoUi with
      checkBox_fisheye := true
      lineEdit_k1 := demoEdit "1"
      lineEdit_k2 := demoEdit "2"
      lineEdit_k3 := demoEdit "3"
      lineEdit_k4 := demoEdit "4" }
    mDistorsion := [9, 9, 9, 9, 9, 9, 9, 9] }

/-- The window `demoState` armed for calibration, fps field "2". -/
def demoArmed : State Unit Unit :=
  { demoState with
    ui := { demoUi with
      pushButton_calibrate := ⟨"Calibrate", true⟩
      lineEdit_camera_fps := demoEdit "2" } }

/-- The window `demoState` armed for calibration, fps field empty. -/
def demoArmedNoFps : State Unit Unit :=
  { demoState with
    ui := { demoUi with
      pushButton_calibrate := ⟨"Calibrate", true⟩
      lineEdit_camera_fps := demoEdit "" } }

/-! ## Lemmas on killGstLaunch -/

theorem killLoop_spec (checks : Nat → Bool) :
    ∀ (n count : Nat) (h : count < 10) (tr : List Event), 10 - count = n →
      count < (killLoop checks count h tr).2.1 ∧
      (killLoop checks count h tr).2.1 ≤ 10 ∧
      (∀ i, count ≤ i → i + 1 < (killLoop checks count h tr).2.1 → checks i = false) ∧
      ((killLoop checks count h tr).1 = true →
        (killLoop checks count h tr).2.1 < 10 ∧
        checks ((killLoop checks count h tr).2.1 - 1) = true) ∧
      ((killLoop checks count h tr).1 = false → (killLoop checks count h tr).2.1 = 10) ∧
      ∃ ext, (killLoop checks count h tr).2.2 = tr ++ ext ∧
        (∀ e ∈ ext, e.isThread = false ∧ e.isGstStart = false) ∧
        ext.count Event.pgrep = (killLoop checks count h tr).2.1 - count ∧
        ext.count Event.pkill = (killLoop checks count h tr).2.1 - count := by
  intro n
  induction n with
  | zero => intro count h tr hn; omega
  | succ n ih =>
    intro count h tr hn
    rw [killLoop]
    by_cases h10 : count + 1 = 10
    · simp only [h10, dite_true]
      refine ⟨by omega, le_refl _, ?_, by simp, by simp, ?_⟩
      · intro i h1 h2; omega
      · refine ⟨_, by rw [List.append_assoc], ?_, ?_, ?_⟩
        · intro e he
          simp at he
          rcases he with rfl | rfl | rfl <;> simp [Event.isThread, Event.isGstStart]
        · simp [List.count_cons]; omega
        · simp [List.count_cons]; omega
    · simp only [h10, dite_false]
      by_cases hd : checks count = true
      · simp only [hd, Bool.not_true, Bool.false_eq_true, if_false]
        refine ⟨by omega, by omega, ?_, ?_, by simp, ?_⟩
        · intro i h1 h2; simp at h2; omega
        · intro _; simp; exact ⟨by omega, hd⟩
        · refine ⟨_, rfl, ?_, ?_, ?_⟩
          · intro e he
            simp at he
            rcases he with rfl | rfl <;> simp [Event.isThread, Event.isGstStart]
          · simp [List.count_cons]
          · simp [List.count_cons]
      · have hd2 : checks count = false := by simpa using hd
        simp only [hd2, Bool.not_false, if_true]
        obtain ⟨a, b, c, d, e, ext, f1, f2, f3, f4⟩ :=
          ih (count + 1) (by omega) (tr ++ [Event.pkill, Event.pgrep]) (by omega)
        refine ⟨by omega, b, ?_, d, e, ?_⟩
        · intro i h1 h2
          by_cases hi : i = count
          · rw [hi]; exact hd2
          · exact c i (by omega) h2
        · refine ⟨[Event.pkill, Event.pgrep] ++ ext, ?_, ?_, ?_, ?_⟩
          · rw [f1, List.append_assoc]
          · intro e he
            simp at he
            rcases he with rfl | rfl | he
            · simp [Event.isThread, Event.isGstStart]
            · simp [Event.isThread, Event.isGstStart]
            · exact f2 e he
          · simp [List.count_cons, f3]; omega
          · simp [List.count_cons, f4]; omega

theorem newEvents_append (s s1 : State U T) (ext : List Event)
    (h : s1.trace = s.trace ++ ext) : newEvents s s1 = ext := by
  simp [newEvents, h]

theorem killGstLaunch_spec (checks : Nat → Bool) (s : State U T) :
    ∃ rounds ext, (killGstLaunch checks s).2 = { s with trace := s.trace ++ ext } ∧
      (∀ e ∈ ext, e.isThread = false ∧ e.isGstStart = false) ∧
      ext.count Event.pgrep = rounds ∧ ext.count Event.pkill = rounds ∧
      0 < rounds ∧ rounds ≤ 10 ∧
      (∀ i, i + 1 < rounds → checks i = false) ∧
      ((killGstLaunch checks s).1 = true → rounds < 10 ∧ checks (rounds - 1) = true) ∧
      ((killGstLaunch checks s).1 = false → rounds = 10) := by
  obtain ⟨a, b, c, d, e, ext, f1, f2, f3, f4⟩ :=
    killLoop_spec checks 10 0 (by decide) s.trace rfl
  refine ⟨(killLoop checks 0 (by decide) s.trace).2.1, ext, ?_, f2, by simpa using f3,
    by simpa using f4, a, b, ?_, d, e⟩
  · simp [killGstLaunch, f1]
  · intro i hi; exact c i (Nat.zero_le _) hi

theorem killGstLaunch_true_iff (checks : Nat → Bool) (s : State U T) :
    (killGstLaunch checks s).1 = true ↔ ∃ i, i < 9 ∧ checks i = true := by
  obtain ⟨rounds, ext, _, _, _, _, h5, h6, h7, h8, h9⟩ := killGstLaunch_spec checks s
  constructor
  · intro hr
    exact ⟨rounds - 1, by have := (h8 hr).1; omega, (h8 hr).2⟩
  · rintro ⟨i, hi, hc⟩
    cases hr : (killGstLaunch checks s).1 with
    | true => rfl
    | false =>
      have h10 := h9 hr
      rw [h7 i (by omega)] at hc
      exact absurd hc (by decide)

/-- C3: for every sequence `checks` of outcomes of the `pgrep gst-launch` check,
`killGstLaunch` returns after at least one and at most 10 rounds, each round one
`pkill` and one `pgrep`, and it returns false whenever none of the checks it makes
(equivalently, none of the first 10) reports an empty process list. -/
theorem C3_killGstLaunch_bounded_retries (checks : Nat → Bool) (s : State U T) :
    1 ≤ (newEvents s (killGstLaunch checks s).2).count Event.pgrep ∧
    (newEvents s (killGstLaunch checks s).2).count Event.pgrep ≤ 10 ∧
    (newEvents s (killGstLaunch checks s).2).count Event.pkill =
      (newEvents s (killGstLaunch checks s).2).count Event.pgrep ∧
    ((∀ i, i < (newEvents s (killGstLaunch checks s).2).count Event.pgrep →
        checks i = false) → (killGstLaunch checks s).1 = false) ∧
    ((∀ i, i < 10 → checks i = false) → (killGstLaunch checks s).1 = false) := by
  obtain ⟨rounds, ext, h1, _, h3, h4, h5, h6, _, h8, _⟩ := killGstLaunch_spec checks s
  have hn : newEvents s (killGstLaunch checks s).2 = ext :=
    newEvents_append s _ ext (by rw [h1])
  rw [hn, h3, h4]
  have key : (∀ i, i < rounds → checks i = false) → (killGstLaunch checks s).1 = false := by
    intro hall
    cases hr : (killGstLaunch checks s).1 with
    | false => rfl
    | true =>
      have := (h8 hr).2
      rw [hall (rounds - 1) (by omega)] at this
      exact absurd this (by decide)
  exact ⟨h5, h6, rfl, key, fun hall => key (fun i hi => hall i (by omega))⟩

/-- Witness of C3: when every check finds a process, ten rounds are made and the
result is false. -/
theorem C3_witness :
    (newEvents demoState (killGstLaunch (fun _ => false) demoState).2).count Event.pgrep ≤ 10 ∧
    (killGstLaunch (fun _ => false) demoState).1 = false :=
  ⟨(C3_killGstLaunch_bounded_retries (fun _ => false) demoState).2.1,
   (C3_killGstLaunch_bounded_retries (fun _ => false) demoState).2.2.2.2 (fun _ _ => rfl)⟩

/-- C9: `killGstLaunch` returns true exactly when one of the first 9 checks reports an
empty process list; when the first empty check is the one of round 10, the function
makes 10 rounds and returns false although the last check found no process. -/
theorem C9_killGstLaunch_true_iff (checks : Nat → Bool) (s : State U T) :
    ((killGstLaunch checks s).1 = true ↔ ∃ i, i < 9 ∧ checks i = true) ∧
    ((∀ i, i < 9 → checks i = false) → checks 9 = true →
      (killGstLaunch checks s).1 = false ∧
      (newEvents s (killGstLaunch checks s).2).count Event.pgrep = 10) := by
  obtain ⟨rounds, ext, h1, _, h3, _, _, _, _, _, h9⟩ := killGstLaunch_spec checks s
  have hn : newEvents s (killGstLaunch checks s).2 = ext :=
    newEvents_append s _ ext (by rw [h1])
  have hiff := killGstLaunch_true_iff checks s
  refine ⟨hiff, ?_⟩
  intro hall _
  have hf : (killGstLaunch checks s).1 = false := by
    cases hr : (killGstLaunch checks s).1 with
    | false => rfl
    | true =>
      obtain ⟨i, hi, hc⟩ := hiff.mp hr
      rw [hall i hi] at hc
      exact absurd hc (by decide)
  exact ⟨hf, by rw [hn, h3]; exact h9 hf⟩

/-- Witness of C9: the process list is first found empty in round 10 (index 9). -/
theorem C9_witness :
    (killGstLaunch (fun i => decide (i = 9)) demoState).1 = false ∧
    (newEvents demoState
      (killGstLaunch (fun i => decide (i = 9)) demoState).2).count Event.pgrep = 10 :=
  (C9_killGstLaunch_true_iff (fun i => decide (i = 9)) demoState).2
    (fun i hi => by simp; omega) (by simp)

/-! ## Lemmas on the distortion vector and the parameter fields -/

@[simp] theorem readD_trace (E : Ext U T) (s : State U T) (i : Nat) :
    (readD E s i).2.trace = s.trace ++ [Event.distRead i] := by
  unfold readD; split <;> rfl

@[simp] theorem readD_ui (E : Ext U T) (s : State U T) (i : Nat) :
    (readD E s i).2.ui = s.ui := by
  unfold readD; split <;> rfl

@[simp] theorem readD_mCameraThread (E : Ext U T) (s : State U T) (i : Nat) :
    (readD E s i).2.mCameraThread = s.mCameraThread := by
  unfold readD; split <;> rfl

@[simp] theorem readD_mCamDev (E : Ext U T) (s : State U T) (i : Nat) :
    (readD E s i).2.mCamDev = s.mCamDev := by
  unfold readD; split <;> rfl

@[simp] theorem readD_mDistorsion (E : Ext U T) (s : State U T) (i : Nat) :
    (readD E s i).2.mDistorsion = s.mDistorsion := by
  unfold readD; split <;> rfl

theorem readD_inBounds (E : Ext U T) (s : State U T) (i : Nat) (v : ℚ)
    (h : s.mDistorsion.get? i = some v) :
    (readD E s i).1 = v ∧ (readD E s i).2.ubFault = s.ubFault := by
  unfold readD; rw [h]; exact ⟨rfl, rfl⟩

theorem readD_pastEnd (E : Ext U T) (s : State U T) (i : Nat)
    (h : s.mDistorsion.length ≤ i) (h0 : s.ubFault = none) :
    (readD E s i).1 = E.pastEnd i ∧
    (readD E s i).2.ubFault = some (Fault.outOfBounds i) := by
  unfold readD
  rw [List.get?_eq_none.mpr h]
  simp [State.flag, State.emit, h0]

@[simp] theorem writeD_trace (s : State U T) (i : Nat) (v : ℚ) :
    (writeD s i v).trace = s.trace ++ [Event.distWrite i] := by
  unfold writeD; split <;> rfl

@[simp] theorem writeD_ui (s : State U T) (i : Nat) (v : ℚ) : (writeD s i v).ui = s.ui := by
  unfold writeD; split <;> rfl

@[simp] theorem writeD_mCameraUndist (s : State U T) (i : Nat) (v : ℚ) :
    (writeD s i v).mCameraUndist = s.mCameraUndist := by
  unfold writeD; split <;> rfl

@[simp] theorem writeD_length (s : State U T) (i : Nat) (v : ℚ) :
    (writeD s i v).mDistorsion.length = s.mDistorsion.length := by
  unfold writeD; split
  · simp
  · rfl

theorem writeD_inBounds (s : State U T) (i : Nat) (v : ℚ) (h : i < s.mDistorsion.length) :
    (writeD s i v).mDistorsion = s.mDistorsion.set i v ∧
    (writeD s i v).ubFault = s.ubFault := by
  unfold writeD; rw [if_pos h]; exact ⟨rfl, rfl⟩

theorem writeD_pastEnd (s : State U T) (i : Nat) (v : ℚ) (h : s.mDistorsion.length ≤ i)
    (h0 : s.ubFault = none) :
    (writeD s i v).mDistorsion = s.mDistorsion ∧
    (writeD s i v).ubFault = some (Fault.outOfBounds i) := by
  unfold writeD
  rw [if_neg (by omega)]
  simp [State.flag, State.emit, h0]

@[simp] theorem readAllD_trace (s : State U T) :
    (readAllD s).trace = s.trace ++ (List.range s.mDistorsion.length).map Event.distRead := rfl

@[simp] theorem readAllD_ui (s : State U T) : (readAllD s).ui = s.ui := rfl

@[simp] theorem readAllD_mDistorsion (s : State U T) :
    (readAllD s).mDistorsion = s.mDistorsion := rfl

@[simp] theorem readAllD_mCameraUndist (s : State U T) :
    (readAllD s).mCameraUndist = s.mCameraUndist := rfl

@[simp] theorem readAllD_ubFault (s : State U T) : (readAllD s).ubFault = s.ubFault := rfl

theorem updateParamGUI_reproj_err (E : Ext U T) (s : State U T) :
    (updateParamGUI E s).ui.lineEdit_calib_reproj_err = s.ui.lineEdit_calib_reproj_err := by
  unfold updateParamGUI
  dsimp only
  split <;> simp only [readD_ui]

theorem styles_distinct :
    styleGood ≠ styleMarginal ∧ styleGood ≠ stylePoor ∧ styleMarginal ≠ stylePoor := by
  decide

/-- C6: for every reprojection error `e` (an exact rational), `onNewCameraParams`
gives the error field the green style iff `e ≤ 0.5`, the yellow style iff
`0.5 < e ≤ 1.0` and the red style iff `e > 1.0`; the three styles differ, so exactly
one band is selected, and every `e` falls in one of them. -/
theorem C6_reproj_error_bands (E : Ext U T) (s : State U T) (K : Mat3x3) (D : List ℚ)
    (refining : Bool) (e : ℚ) :
    ((onNewCameraParams E s K D refining e).ui.lineEdit_calib_reproj_err.styleSheet
        = styleGood ↔ e ≤ 1 / 2) ∧
    ((onNewCameraParams E s K D refining e).ui.lineEdit_calib_reproj_err.styleSheet
        = styleMarginal ↔ 1 / 2 < e ∧ e ≤ 1) ∧
    ((onNewCameraParams E s K D refining e).ui.lineEdit_calib_reproj_err.styleSheet
        = stylePoor ↔ 1 < e) ∧
    (e ≤ 1 / 2 ∨ (1 / 2 < e ∧ e ≤ 1) ∨ 1 < e) ∧
    ¬ (e ≤ 1 / 2 ∧ 1 / 2 < e ∧ e ≤ 1) ∧ ¬ (e ≤ 1 / 2 ∧ 1 < e) ∧
    ¬ ((1 / 2 < e ∧ e ≤ 1) ∧ 1 < e) ∧
    styleGood ≠ styleMarginal ∧ styleGood ≠ stylePoor ∧ styleMarginal ≠ stylePoor := by
  obtain ⟨d1, d2, d3⟩ := styles_distinct
  have hst : (onNewCameraParams E s K D refining e).ui.lineEdit_calib_reproj_err.styleSheet
      = if e ≤ 0.5 then styleGood
        else if e ≤ 1.0 ∧ e > 0.5 then styleMarginal else stylePoor := by
    unfold onNewCameraParams
    simp only [updateParamGUI_reproj_err, QLineEdit.setStyleSheet]
  rw [hst]
  have c1 : (0.5 : ℚ) = 1 / 2 := by norm_num
  have c2 : (1.0 : ℚ) = 1 := by norm_num
  rw [c1, c2]
  have cover : e ≤ 1 / 2 ∨ (1 / 2 < e ∧ e ≤ 1) ∨ 1 < e := by
    by_cases h1 : e ≤ 1 / 2
    · exact Or.inl h1
    · by_cases h2 : e ≤ 1
      · exact Or.inr (Or.inl ⟨lt_of_not_le h1, h2⟩)
      · exact Or.inr (Or.inr (lt_of_not_le h2))
  refine ⟨?_, ?_, ?_, cover, ?_, ?_, ?_, d1, d2, d3⟩
  · rcases cover with h | h | h
    · rw [if_pos h]; exact ⟨fun _ => h, fun _ => rfl⟩
    · rw [if_neg (not_le.mpr h.1), if_pos ⟨h.2, h.1⟩]
      exact ⟨fun hc => absurd hc.symm d1, fun hc => absurd hc (not_le.mpr h.1)⟩
    · rw [if_neg (not_le.mpr (by linarith)), if_neg (fun hc => absurd hc.1 (not_le.mpr h))]
      exact ⟨fun hc => absurd hc.symm d2, fun hc => absurd hc (not_le.mpr (by linarith))⟩
  · rcases cover with h | h | h
    · rw [if_pos h]
      exact ⟨fun hc => absurd hc d1, fun hc => absurd h (not_le.mpr hc.1)⟩
    · rw [if_neg (not_le.mpr h.1), if_pos ⟨h.2, h.1⟩]
      exact ⟨fun _ => h, fun _ => rfl⟩
    · rw [if_neg (not_le.mpr (by linarith)), if_neg (fun hc => absurd hc.1 (not_le.mpr h))]
      exact ⟨fun hc => absurd hc.symm d3, fun hc => absurd hc.2 (not_le.mpr h)⟩
  · rcases cover with h | h | h
    · rw [if_pos h]
      exact ⟨fun hc => absurd hc d2, fun hc => absurd h (not_le.mpr (by linarith))⟩
    · rw [if_neg (not_le.mpr h.1), if_pos ⟨h.2, h.1⟩]
      exact ⟨fun hc => absurd hc d3, fun hc => absurd h.2 (not_le.mpr hc)⟩
    · rw [if_neg (not_le.mpr (by linarith)), if_neg (fun hc => absurd hc.1 (not_le.mpr h))]
      exact ⟨fun _ => h, fun _ => rfl⟩
  · rintro ⟨a, b, _⟩; linarith
  · rintro ⟨a, b⟩; linarith
  · rintro ⟨⟨_, a⟩, b⟩; linarith

theorem updateParamGUI_trace (E : Ext U T) (s : State U T) :
    (updateParamGUI E s).trace = s.trace ++
      (if s.ui.checkBox_fisheye then
        [Event.distRead 0, Event.distRead 1, Event.distRead 2, Event.distRead 3]
      else
        [Event.distRead 0, Event.distRead 1, Event.distRead 2, Event.distRead 3,
         Event.distRead 4, Event.distRead 5, Event.distRead 6, Event.distRead 7]) := by
  unfold updateParamGUI
  dsimp only
  simp only [readD_ui]
  split <;> simp

theorem updateParamGUI_eight (E : Ext U T) (s : State U T)
    (d0 d1 d2 d3 d4 d5 d6 d7 : ℚ) (hD : s.mDistorsion = [d0, d1, d2, d3, d4, d5, d6, d7]) :
    (updateParamGUI E s).ubFault = s.ubFault ∧
    (updateParamGUI E s).mDistorsion = s.mDistorsion ∧
    (s.ui.checkBox_fisheye = true →
      (updateParamGUI E s).ui.lineEdit_k1.text = E.arg d0 ∧
      (updateParamGUI E s).ui.lineEdit_k2.text = E.arg d1 ∧
      (updateParamGUI E s).ui.lineEdit_k3.text = E.arg d2 ∧
      (updateParamGUI E s).ui.lineEdit_k4.text = E.arg d3) ∧
    (s.ui.checkBox_fisheye = false →
      (updateParamGUI E s).ui.lineEdit_k1.text = E.arg d0 ∧
      (updateParamGUI E s).ui.lineEdit_k2.text = E.arg d1 ∧
      (updateParamGUI E s).ui.lineEdit_p1.text = E.arg d2 ∧
      (updateParamGUI E s).ui.lineEdit_p2.text = E.arg d3 ∧
      (updateParamGUI E s).ui.lineEdit_k3.text = E.arg d4 ∧
      (updateParamGUI E s).ui.lineEdit_k4.text = E.arg d5 ∧
      (updateParamGUI E s).ui.lineEdit_k5.text = E.arg d6 ∧
      (updateParamGUI E s).ui.lineEdit_k6.text = E.arg d7) := by
  unfold updateParamGUI
  cases hf : s.ui.checkBox_fisheye <;>
    simp [readD, State.emit, hD, hf, QLineEdit.setText, QLineEdit.setVisible]

theorem setNewCameraParams_eight (E : Ext U T) (s : State U T)
    (d0 d1 d2 d3 d4 d5 d6 d7 : ℚ) (hD : s.mDistorsion = [d0, d1, d2, d3, d4, d5, d6, d7]) :
    (setNewCameraParams E s).trace = s.trace ++
      ([Event.distWrite 0, Event.distWrite 1, Event.distWrite 2, Event.distWrite 3,
        Event.distWrite 4, Event.distWrite 5, Event.distWrite 6, Event.distWrite 7] ++
       [Event.distRead 0, Event.distRead 1, Event.distRead 2, Event.distRead 3,
        Event.distRead 4, Event.distRead 5, Event.distRead 6, Event.distRead 7] ++
       (if s.mCameraUndist.isSome then
         [Event.distRead 0, Event.distRead 1, Event.distRead 2, Event.distRead 3,
          Event.distRead 4, Event.distRead 5, Event.distRead 6, Event.distRead 7]
        else [])) ∧
    (setNewCameraParams E s).mDistorsion =
      (if s.ui.checkBox_fisheye then
        [E.toDouble s.ui.lineEdit_k1.text, E.toDouble s.ui.lineEdit_k2.text,
         E.toDouble s.ui.lineEdit_k3.text, E.toDouble s.ui.lineEdit_k4.text, 0, 0, 0, 0]
      else
        [E.toDouble s.ui.lineEdit_k1.text, E.toDouble s.ui.lineEdit_k2.text,
         E.toDouble s.ui.lineEdit_p1.text, E.toDouble s.ui.lineEdit_p2.text,
         E.toDouble s.ui.lineEdit_k3.text, E.toDouble s.ui.lineEdit_k4.text,
         E.toDouble s.ui.lineEdit_k5.text, E.toDouble s.ui.lineEdit_k6.text]) ∧
    (setNewCameraParams E s).ubFault = s.ubFault ∧
    (setNewCameraParams E s).ui = s.ui ∧
    (setNewCameraParams E s).mCameraUndist.isSome = s.mCameraUndist.isSome := by
  unfold setNewCameraParams
  cases hf : s.ui.checkBox_fisheye <;> cases hu : s.mCameraUndist <;>
    simp [writeD, readAllD, State.emit, hD, hf, hu, List.range, List.range.loop]

theorem accesses_four_rows (E : Ext U T) (s : State U T) (d0 d1 d2 d3 : ℚ)
    (hD : s.mDistorsion = [d0, d1, d2, d3]) (h0 : s.ubFault = none) :
    (setNewCameraParams E s).ubFault = some (Fault.outOfBounds 4) ∧
    (s.ui.checkBox_fisheye = true → (updateParamGUI E s).ubFault = none) ∧
    (s.ui.checkBox_fisheye = false →
      (updateParamGUI E s).ubFault = some (Fault.outOfBounds 4)) := by
  refine ⟨?_, ?_, ?_⟩
  · unfold setNewCameraParams
    cases hf : s.ui.checkBox_fisheye <;> cases hu : s.mCameraUndist <;>
      simp [writeD, readAllD, State.emit, State.flag, hD, hf, hu, h0]
  · intro hf
    unfold updateParamGUI
    simp [readD, State.emit, State.flag, hD, hf, h0]
  · intro hf
    unfold updateParamGUI
    simp [readD, State.emit, State.flag, hD, hf, h0]

/-- C7 (as stated) fails: the constructor sets both focal lengths to 884, not to 1. -/
theorem C7_counterexample :
    (ctor demoExt (fun _ => true) ["/dev/video0"] demoState).mIntrinsic.m00 = 884 ∧
    (ctor demoExt (fun _ => true) ["/dev/video0"] demoState).mIntrinsic.m11 = 884 ∧
    (ctor demoExt (fun _ => true) ["/dev/video0"] demoState).mIntrinsic.m00 ≠ 1 ∧
    (ctor demoExt (fun _ => true) ["/dev/video0"] demoState).mIntrinsic.m11 ≠ 1 := by
  simp only [ctor, Mat3x3.zeros]
  norm_num

/-- C7 (amended): for every content of the width and height fields, read as `w` and
`h` by `toDouble`, the constructor leaves the intrinsic matrix with `cx = w/2`,
`cy = h/2`, `fx = fy = 884`, `K[2][2] = 1` and every other entry 0, and a distortion
vector of 8 slots that are all 0. -/
theorem C7_default_camera_model (E : Ext U T) (checks : Nat → Bool)
    (cameras : List String) (s0 : State U T) :
    (ctor E checks cameras s0).mIntrinsic =
      { m00 := 884, m01 := 0, m02 := E.toDouble s0.ui.lineEdit_camera_w.text / 2,
        m10 := 0, m11 := 884, m12 := E.toDouble s0.ui.lineEdit_camera_h.text / 2,
        m20 := 0, m21 := 0, m22 := 1 } ∧
    (ctor E checks cameras s0).mDistorsion.length = 8 ∧
    (∀ x ∈ (ctor E checks cameras s0).mDistorsion, x = 0) := by
  refine ⟨?_, ?_, ?_⟩
  · simp only [ctor, Mat3x3.zeros, killGstLaunch]
    norm_num
  · simp [ctor]
  · intro x hx
    simp only [ctor] at hx
    exact List.eq_of_mem_replicate hx

/-- C2 (as stated) fails: with the fisheye box checked `setNewCameraParams` does not
write slots 0..3 only; it writes slots 0..7, and slots 4..7, which held 9, hold 0
afterwards. -/
theorem C2_counterexample :
    demoFisheye2.ui.checkBox_fisheye = true ∧
    demoFisheye2.mDistorsion = [9, 9, 9, 9, 9, 9, 9, 9] ∧
    distWrites (newEvents demoFisheye2 (setNewCameraParams demoExt2 demoFisheye2))
      = [0, 1, 2, 3, 4, 5, 6, 7] ∧
    distWrites (newEvents demoFisheye2 (setNewCameraParams demoExt2 demoFisheye2))
      ≠ [0, 1, 2, 3] ∧
    (setNewCameraParams demoExt2 demoFisheye2).mDistorsion = [1, 2, 3, 4, 0, 0, 0, 0] := by
  obtain ⟨h1, h2, _⟩ :=
    setNewCameraParams_eight demoExt2 demoFisheye2 9 9 9 9 9 9 9 9 rfl
  rw [newEvents_append demoFisheye2 _ _ h1, h2]
  refine ⟨rfl, rfl, by decide, by decide, ?_⟩
  have e1 : toInt "1" = 1 := by decide
  have e2 : toInt "2" = 2 := by decide
  have e3 : toInt "3" = 3 := by decide
  have e4 : toInt "4" = 4 := by decide
  simp [demoFisheye2, demoUi, demoEdit, demoExt2, e1, e2, e3, e4]

/-- C2 (amended): for a distortion vector of 8 rows (as the constructor allocates it),
holding `d0 .. d7`: `updateParamGUI` reads exactly slots 0..3 when the fisheye box is
checked and exactly slots 0..7 when it is not, shows each value read in its field,
writes no slot and makes no access past the end. `setNewCameraParams` writes exactly
slots 0..7 for either value of the box: with the box checked slots 0..3 take the
values of the fields k1..k4 and slots 4..7 the value 0, with the box unchecked the
eight slots take the values of the fields k1, k2, p1, p2, k3, k4, k5, k6; after its
writes it reads the whole vector (to print it, and once more to hand it to the
engine when there is one), and it makes no access past the end. Consequently
`on_checkBox_fisheye_clicked` first writes slots 0..7 and afterwards only reads, and
every slot it reads has been written by the same call. -/
theorem C2_distortion_slots (E : Ext U T) (s : State U T)
    (d0 d1 d2 d3 d4 d5 d6 d7 : ℚ) (hD : s.mDistorsion = [d0, d1, d2, d3, d4, d5, d6, d7]) :
    (distReads (newEvents s (updateParamGUI E s)) =
        (if s.ui.checkBox_fisheye then [0, 1, 2, 3] else [0, 1, 2, 3, 4, 5, 6, 7]) ∧
      distWrites (newEvents s (updateParamGUI E s)) = [] ∧
      (updateParamGUI E s).ubFault = s.ubFault ∧
      (s.ui.checkBox_fisheye = true →
        (updateParamGUI E s).ui.lineEdit_k1.text = E.arg d0 ∧
        (updateParamGUI E s).ui.lineEdit_k2.text = E.arg d1 ∧
        (updateParamGUI E s).ui.lineEdit_k3.text = E.arg d2 ∧
        (updateParamGUI E s).ui.lineEdit_k4.text = E.arg d3) ∧
      (s.ui.checkBox_fisheye = false →
        (updateParamGUI E s).ui.lineEdit_k1.text = E.arg d0 ∧
        (updateParamGUI E s).ui.lineEdit_k2.text = E.arg d1 ∧
        (updateParamGUI E s).ui.lineEdit_p1.text = E.arg d2 ∧
        (updateParamGUI E s).ui.lineEdit_p2.text = E.arg d3 ∧
        (updateParamGUI E s).ui.lineEdit_k3.text = E.arg d4 ∧
        (updateParamGUI E s).ui.lineEdit_k4.text = E.arg d5 ∧
        (updateParamGUI E s).ui.lineEdit_k5.text = E.arg d6 ∧
        (updateParamGUI E s).ui.lineEdit_k6.text = E.arg d7)) ∧
    (distWrites (newEvents s (setNewCameraParams E s)) = [0, 1, 2, 3, 4, 5, 6, 7] ∧
      (setNewCameraParams E s).mDistorsion =
        (if s.ui.checkBox_fisheye then
          [E.toDouble s.ui.lineEdit_k1.text, E.toDouble s.ui.lineEdit_k2.text,
           E.toDouble s.ui.lineEdit_k3.text, E.toDouble s.ui.lineEdit_k4.text, 0, 0, 0, 0]
        else
          [E.toDouble s.ui.lineEdit_k1.text, E.toDouble s.ui.lineEdit_k2.text,
           E.toDouble s.ui.lineEdit_p1.text, E.toDouble s.ui.lineEdit_p2.text,
           E.toDouble s.ui.lineEdit_k3.text, E.toDouble s.ui.lineEdit_k4.text,
           E.toDouble s.ui.lineEdit_k5.text, E.toDouble s.ui.lineEdit_k6.text]) ∧
      newEvents s (setNewCameraParams E s) =
        [Event.distWrite 0, Event.distWrite 1, Event.distWrite 2, Event.distWrite 3,
         Event.distWrite 4, Event.distWrite 5, Event.distWrite 6, Event.distWrite 7] ++
        [Event.distRead 0, Event.distRead 1, Event.distRead 2, Event.distRead 3,
         Event.distRead 4, Event.distRead 5, Event.distRead 6, Event.distRead 7] ++
        (if s.mCameraUndist.isSome then
          [Event.distRead 0, Event.distRead 1, Event.distRead 2, Event.distRead 3,
           Event.distRead 4, Event.distRead 5, Event.distRead 6, Event.distRead 7]
         else []) ∧
      (setNewCameraParams E s).ubFault = s.ubFault) ∧
    ((∃ ws rs, newEvents s (on_checkBox_fisheye_clicked E s) = ws ++ rs ∧
        distWrites ws = [0, 1, 2, 3, 4, 5, 6, 7] ∧ distReads ws = [] ∧
        distWrites rs = [] ∧
        (∀ i ∈ distReads rs, i ∈ distWrites ws) ∧
        (∀ i ∈ (if s.ui.checkBox_fisheye then [0, 1, 2, 3]
                else [0, 1, 2, 3, 4, 5, 6, 7]), i ∈ distReads rs)) ∧
      (∀ i ∈ distReads (newEvents s (on_checkBox_fisheye_clicked E s)),
        i ∈ distWrites (newEvents s (on_checkBox_fisheye_clicked E s))) ∧
      (on_checkBox_fisheye_clicked E s).ubFault = s.ubFault) := by
  obtain ⟨w1, w2, w3, w4, _⟩ := setNewCameraParams_eight E s d0 d1 d2 d3 d4 d5 d6 d7 hD
  obtain ⟨u1, _, u3, u4⟩ := updateParamGUI_eight E s d0 d1 d2 d3 d4 d5 d6 d7 hD
  have hu := newEvents_append s _ _ (updateParamGUI_trace E s)
  have hw := newEvents_append s _ _ w1
  refine ⟨⟨?_, ?_, u1, u3, u4⟩, ⟨?_, w2, hw, w3⟩, ?_⟩
  · rw [hu]
    cases s.ui.checkBox_fisheye <;> decide
  · rw [hu]
    cases s.ui.checkBox_fisheye <;> decide
  · rw [hw]
    cases s.mCameraUndist.isSome <;> decide
  · have hc : (on_checkBox_fisheye_clicked E s).trace = s.trace ++
        ([Event.distWrite 0, Event.distWrite 1, Event.distWrite 2, Event.distWrite 3,
          Event.distWrite 4, Event.distWrite 5, Event.distWrite 6, Event.distWrite 7] ++
         ([Event.distRead 0, Event.distRead 1, Event.distRead 2, Event.distRead 3,
           Event.distRead 4, Event.distRead 5, Event.distRead 6, Event.distRead 7] ++
          (if s.mCameraUndist.isSome then
            [Event.distRead 0, Event.distRead 1, Event.distRead 2, Event.distRead 3,
             Event.distRead 4, Event.distRead 5, Event.distRead 6, Event.distRead 7]
           else []) ++
          (if s.ui.checkBox_fisheye then
            [Event.distRead 0, Event.distRead 1, Event.distRead 2, Event.distRead 3]
          else
            [Event.distRead 0, Event.distRead 1, Event.distRead 2, Event.distRead 3,
             Event.distRead 4, Event.distRead 5, Event.distRead 6, Event.distRead 7]))) := by
      unfold on_checkBox_fisheye_clicked
      rw [updateParamGUI_trace, w1, w4]
      simp only [List.append_assoc]
    have hn := newEvents_append s _ _ hc
    have hf : (on_checkBox_fisheye_clicked E s).ubFault = s.ubFault := by
      unfold on_checkBox_fisheye_clicked
      obtain ⟨v1, _, _, _⟩ := updateParamGUI_eight E (setNewCameraParams E s)
        _ _ _ _ _ _ _ _ (by
          rw [w2]
          cases s.ui.checkBox_fisheye <;> rfl : (setNewCameraParams E s).mDistorsion =
            [(if s.ui.checkBox_fisheye then E.toDouble s.ui.lineEdit_k1.text
                else E.toDouble s.ui.lineEdit_k1.text),
             (if s.ui.checkBox_fisheye then E.toDouble s.ui.lineEdit_k2.text
                else E.toDouble s.ui.lineEdit_k2.text),
             (if s.ui.checkBox_fisheye then E.toDouble s.ui.lineEdit_k3.text
                else E.toDouble s.ui.lineEdit_p1.text),
             (if s.ui.checkBox_fisheye then E.toDouble s.ui.lineEdit_k4.text
                else E.toDouble s.ui.lineEdit_p2.text),
             (if s.ui.checkBox_fisheye then 0 else E.toDouble s.ui.lineEdit_k3.text),
             (if s.ui.checkBox_fisheye then 0 else E.toDouble s.ui.lineEdit_k4.text),
             (if s.ui.checkBox_fisheye then 0 else E.toDouble s.ui.lineEdit_k5.text),
             (if s.ui.checkBox_fisheye then 0 else E.toDouble s.ui.lineEdit_k6.text)])
      rw [v1, w3]
    refine ⟨⟨_, _, hn, by decide, by decide, ?_, ?_, ?_⟩, ?_, hf⟩
    · cases s.mCameraUndist.isSome <;> cases s.ui.checkBox_fisheye <;> decide
    · cases s.mCameraUndist.isSome <;> cases s.ui.checkBox_fisheye <;> decide
    · cases s.mCameraUndist.isSome <;> cases s.ui.checkBox_fisheye <;> decide
    · rw [hn]
      cases s.mCameraUndist.isSome <;> cases s.ui.checkBox_fisheye <;> decide

/-- Witness of C2: in a window with the fisheye box checked, fields k1..k4 holding
1..4 and a vector of eight 9s, `setNewCameraParams` leaves the vector 1, 2, 3, 4, 0,
0, 0, 0. -/
theorem C2_witness :
    (setNewCameraParams demoExt2 demoFisheye2).mDistorsion = [1, 2, 3, 4, 0, 0, 0, 0] := by
  have h := (C2_distortion_slots demoExt2 demoFisheye2 9 9 9 9 9 9 9 9 rfl).2.1.2.1
  have e1 : toInt "1" = 1 := by decide
  have e2 : toInt "2" = 2 := by decide
  have e3 : toInt "3" = 3 := by decide
  have e4 : toInt "4" = 4 := by decide
  rw [h]
  simp [demoFisheye2, demoUi, demoEdit, demoExt2, e1, e2, e3, e4]

/-! ## Lemmas on onNewImage -/

theorem submitted_append (a b : List Event) :
    submitted (a ++ b) = submitted a ++ submitted b := by
  induction a with
  | nil => rfl
  | cons e es ih => cases e <;> simp [submitted, ih]

theorem onNewImageCount_trace (s : State U T) (frame : Mat) :
    ∃ refit, (onNewImageCount s frame).trace = s.trace ++ refit ∧ submitted refit = [] ∧
      ∀ t, Event.tryStart t ∉ refit := by
  unfold onNewImageCount
  by_cases h : s.frameW ≠ frame.cols ∨ s.frameH ≠ frame.rows
  · refine ⟨[Event.fitInView View.raw frame.cols frame.rows,
        Event.fitInView View.checkboard frame.cols frame.rows,
        Event.fitInView View.undistorted frame.cols frame.rows], ?_, rfl, by simp⟩
    simp only [if_pos h, State.emit]
  · exact ⟨[], by simp only [if_neg h, List.append_nil], rfl, by simp⟩

theorem onNewImageCount_frmCnt (s : State U T) (frame : Mat) :
    (onNewImageCount s frame).frmCnt = wrap32 (s.frmCnt + 1) := by
  unfold onNewImageCount
  dsimp only
  split <;> rfl

theorem onNewImageCount_ui (s : State U T) (frame : Mat) :
    (onNewImageCount s frame).ui = s.ui := by
  unfold onNewImageCount
  dsimp only
  split <;> rfl

theorem onNewImageCount_raw (s : State U T) (frame : Mat) :
    (onNewImageCount s frame).mCameraSceneRaw = some frame := by
  unfold onNewImageCount
  rfl

theorem onNewImageCount_undist (s : State U T) (frame : Mat) :
    (onNewImageCount s frame).mCameraUndist = s.mCameraUndist := by
  unfold onNewImageCount
  dsimp only
  split <;> rfl

theorem onNewImageCount_thread (s : State U T) (frame : Mat) :
    (onNewImageCount s frame).mCameraThread = s.mCameraThread := by
  unfold onNewImageCount
  dsimp only
  split <;> rfl

theorem onNewImageCount_cb (s : State U T) (frame : Mat) :
    (onNewImageCount s frame).mCbSize = s.mCbSize ∧
    (onNewImageCount s frame).mCbSizeMm = s.mCbSizeMm := by
  unfold onNewImageCount
  dsimp only
  split <;> exact ⟨rfl, rfl⟩

theorem onNewImageDisplay_keeps (E : Ext U T) (s : State U T) (frame : Mat) :
    (onNewImageDisplay E s frame).state.trace = s.trace ∧
    (onNewImageDisplay E s frame).state.frmCnt = s.frmCnt ∧
    (onNewImageDisplay E s frame).state.mCameraSceneRaw = s.mCameraSceneRaw ∧
    (onNewImageDisplay E s frame).state.ui.pushButton_calibrate = s.ui.pushButton_calibrate ∧
    (onNewImageDisplay E s frame).state.ui.lineEdit_camera_fps = s.ui.lineEdit_camera_fps ∧
    (onNewImageDisplay E s frame).state.mCameraThread = s.mCameraThread ∧
    (onNewImageDisplay E s frame).state.mCameraUndist.isSome = s.mCameraUndist.isSome ∧
    (onNewImageDisplay E s frame).fault ≠ some Fault.divByZero ∧
    (onNewImageDisplay E s frame).fault ≠ some Fault.remOverflow := by
  unfold onNewImageDisplay
  cases hu : s.mCameraUndist with
  | none => simp [hu]
  | some u =>
    dsimp only
    cases hr : (E.undistort u frame).2.empty <;> cases ht : s.mCameraThread <;> simp [ht]

theorem onNewImageDisplay_ok (E : Ext U T) (s : State U T) (frame : Mat)
    (hu : s.mCameraUndist.isSome = true) (ht : s.mCameraThread.isSome = true) :
    (onNewImageDisplay E s frame).fault = none := by
  unfold onNewImageDisplay
  cases hu1 : s.mCameraUndist with
  | none => simp [hu1] at hu
  | some u =>
    cases ht1 : s.mCameraThread with
    | none => simp [ht1] at ht
    | some t =>
      dsimp only
      cases hr : (E.undistort u frame).2.empty <;> simp [ht1]

theorem onNewImageDisplay_view (E : Ext U T) (s : State U T) (frame : Mat) (u : U)
    (hu : s.mCameraUndist = some u) :
    (onNewImageDisplay E s frame).state.mCameraSceneUndistorted =
      some (if (E.undistort u frame).2.empty then frame else (E.undistort u frame).2) := by
  unfold onNewImageDisplay
  rw [hu]
  dsimp only
  cases hr : (E.undistort u frame).2.empty <;> cases ht : s.mCameraThread <;> simp [ht]

theorem onNewImage_unchecked (E : Ext U T) (s : State U T) (frame : Mat)
    (hc : s.ui.pushButton_calibrate.checked = false) :
    onNewImage E s frame = onNewImageDisplay E (onNewImageCount s frame) frame := by
  unfold onNewImage
  simp [onNewImageCount_ui, hc]

theorem onNewImage_zero (E : Ext U T) (s : State U T) (frame : Mat)
    (hc : s.ui.pushButton_calibrate.checked = true)
    (hz : toInt s.ui.lineEdit_camera_fps.text = 0) :
    onNewImage E s frame = ⟨onNewImageCount s frame, some Fault.divByZero⟩ := by
  unfold onNewImage
  simp [onNewImageCount_ui, hc, hz]

theorem onNewImage_overflow (E : Ext U T) (s : State U T) (frame : Mat)
    (hc : s.ui.pushButton_calibrate.checked = true)
    (hz : toInt s.ui.lineEdit_camera_fps.text ≠ 0)
    (ho : wrap32 (s.frmCnt + 1) = -2147483648 ∧ toInt s.ui.lineEdit_camera_fps.text = -1) :
    onNewImage E s frame = ⟨onNewImageCount s frame, some Fault.remOverflow⟩ := by
  unfold onNewImage
  simp only [onNewImageCount_ui, onNewImageCount_frmCnt, hc, if_true, if_neg hz, if_pos ho]

theorem onNewImage_submit (E : Ext U T) (s : State U T) (frame : Mat)
    (hc : s.ui.pushButton_calibrate.checked = true)
    (hz : toInt s.ui.lineEdit_camera_fps.text ≠ 0)
    (ho : ¬ (wrap32 (s.frmCnt + 1) = -2147483648 ∧ toInt s.ui.lineEdit_camera_fps.text = -1))
    (hm : Int.tmod (wrap32 (s.frmCnt + 1)) (toInt s.ui.lineEdit_camera_fps.text) = 0) :
    onNewImage E s frame =
      onNewImageDisplay E ((onNewImageCount s frame).emit
        [Event.tryStart ⟨frame, s.mCbSize, s.mCbSizeMm⟩]) frame := by
  unfold onNewImage
  simp only [onNewImageCount_ui, onNewImageCount_frmCnt, (onNewImageCount_cb s frame).1,
    (onNewImageCount_cb s frame).2, hc, if_true, if_neg hz, if_neg ho, if_pos hm]

theorem onNewImage_skip (E : Ext U T) (s : State U T) (frame : Mat)
    (hc : s.ui.pushButton_calibrate.checked = true)
    (hz : toInt s.ui.lineEdit_camera_fps.text ≠ 0)
    (ho : ¬ (wrap32 (s.frmCnt + 1) = -2147483648 ∧ toInt s.ui.lineEdit_camera_fps.text = -1))
    (hm : Int.tmod (wrap32 (s.frmCnt + 1)) (toInt s.ui.lineEdit_camera_fps.text) ≠ 0) :
    onNewImage E s frame = onNewImageDisplay E (onNewImageCount s frame) frame := by
  unfold onNewImage
  simp only [onNewImageCount_ui, onNewImageCount_frmCnt, hc, if_true, if_neg hz, if_neg ho,
    if_neg hm]

theorem onNewImage_trace (E : Ext U T) (s : State U T) (frame : Mat) :
    ∃ refit, submitted refit = [] ∧ (∀ t, Event.tryStart t ∉ refit) ∧
      (onNewImage E s frame).state.trace = s.trace ++ (refit ++
        (if s.ui.pushButton_calibrate.checked = true ∧
            toInt s.ui.lineEdit_camera_fps.text ≠ 0 ∧
            ¬ (wrap32 (s.frmCnt + 1) = -2147483648 ∧
                toInt s.ui.lineEdit_camera_fps.text = -1) ∧
            Int.tmod (wrap32 (s.frmCnt + 1)) (toInt s.ui.lineEdit_camera_fps.text) = 0
          then [Event.tryStart ⟨frame, s.mCbSize, s.mCbSizeMm⟩] else [])) := by
  obtain ⟨refit, h1, h2, h3⟩ := onNewImageCount_trace s frame
  refine ⟨refit, h2, h3, ?_⟩
  cases hc : s.ui.pushButton_calibrate.checked with
  | false =>
    rw [onNewImage_unchecked E s frame hc, (onNewImageDisplay_keeps E _ frame).1, h1,
      if_neg (by simp)]
    simp
  | true =>
    by_cases hz : toInt s.ui.lineEdit_camera_fps.text = 0
    · rw [onNewImage_zero E s frame hc hz, if_neg (fun h => h.2.1 hz)]
      simp [h1]
    · by_cases ho : wrap32 (s.frmCnt + 1) = -2147483648 ∧
          toInt s.ui.lineEdit_camera_fps.text = -1
      · rw [onNewImage_overflow E s frame hc hz ho, if_neg (fun h => h.2.2.1 ho)]
        simp [h1]
      · by_cases hm : Int.tmod (wrap32 (s.frmCnt + 1))
            (toInt s.ui.lineEdit_camera_fps.text) = 0
        · rw [onNewImage_submit E s frame hc hz ho hm, (onNewImageDisplay_keeps E _ frame).1,
            if_pos ⟨rfl, hz, ho, hm⟩]
          simp [State.emit, h1]
        · rw [onNewImage_skip E s frame hc hz ho hm, (onNewImageDisplay_keeps E _ frame).1,
            if_neg (fun h => hm h.2.2.2), h1]
          simp

theorem onNewImage_divByZero_iff (E : Ext U T) (s : State U T) (frame : Mat) :
    (onNewImage E s frame).fault = some Fault.divByZero ↔
      s.ui.pushButton_calibrate.checked = true ∧ toInt s.ui.lineEdit_camera_fps.text = 0 := by
  cases hc : s.ui.pushButton_calibrate.checked with
  | false =>
    rw [onNewImage_unchecked E s frame hc]
    simp only [Bool.false_eq_true, false_and, iff_false]
    exact (onNewImageDisplay_keeps E _ frame).2.2.2.2.2.2.2.1
  | true =>
    by_cases hz : toInt s.ui.lineEdit_camera_fps.text = 0
    · rw [onNewImage_zero E s frame hc hz]
      simp [hz]
    · simp only [hz, and_false, iff_false]
      by_cases ho : wrap32 (s.frmCnt + 1) = -2147483648 ∧
          toInt s.ui.lineEdit_camera_fps.text = -1
      · rw [onNewImage_overflow E s frame hc hz ho]
        simp
      · by_cases hm : Int.tmod (wrap32 (s.frmCnt + 1))
            (toInt s.ui.lineEdit_camera_fps.text) = 0
        · rw [onNewImage_submit E s frame hc hz ho hm]
          exact (onNewImageDisplay_keeps E _ frame).2.2.2.2.2.2.2.1
        · rw [onNewImage_skip E s frame hc hz ho hm]
          exact (onNewImageDisplay_keeps E _ frame).2.2.2.2.2.2.2.1

theorem onNewImage_steady (E : Ext U T) (s : State U T) (frame : Mat) :
    (onNewImage E s frame).state.frmCnt = wrap32 (s.frmCnt + 1) ∧
    (onNewImage E s frame).state.mCameraSceneRaw = some frame ∧
    (onNewImage E s frame).state.ui.pushButton_calibrate = s.ui.pushButton_calibrate ∧
    (onNewImage E s frame).state.ui.lineEdit_camera_fps = s.ui.lineEdit_camera_fps ∧
    (onNewImage E s frame).state.mCameraThread = s.mCameraThread ∧
    (onNewImage E s frame).state.mCameraUndist.isSome = s.mCameraUndist.isSome := by
  have base : (onNewImageCount s frame).frmCnt = wrap32 (s.frmCnt + 1) ∧
      (onNewImageCount s frame).mCameraSceneRaw = some frame ∧
      (onNewImageCount s frame).ui.pushButton_calibrate = s.ui.pushButton_calibrate ∧
      (onNewImageCount s frame).ui.lineEdit_camera_fps = s.ui.lineEdit_camera_fps ∧
      (onNewImageCount s frame).mCameraThread = s.mCameraThread ∧
      (onNewImageCount s frame).mCameraUndist.isSome = s.mCameraUndist.isSome := by
    rw [onNewImageCount_frmCnt, onNewImageCount_raw, onNewImageCount_ui,
      onNewImageCount_thread, onNewImageCount_undist]
    exact ⟨rfl, rfl, rfl, rfl, rfl, rfl⟩
  have disp : ∀ s1 : State U T,
      s1.frmCnt = wrap32 (s.frmCnt + 1) ∧
      s1.mCameraSceneRaw = some frame ∧
      s1.ui.pushButton_calibrate = s.ui.pushButton_calibrate ∧
      s1.ui.lineEdit_camera_fps = s.ui.lineEdit_camera_fps ∧
      s1.mCameraThread = s.mCameraThread ∧
      s1.mCameraUndist.isSome = s.mCameraUndist.isSome →
      (onNewImageDisplay E s1 frame).state.frmCnt = wrap32 (s.frmCnt + 1) ∧
      (onNewImageDisplay E s1 frame).state.mCameraSceneRaw = some frame ∧
      (onNewImageDisplay E s1 frame).state.ui.pushButton_calibrate
        = s.ui.pushButton_calibrate ∧
      (onNewImageDisplay E s1 frame).state.ui.lineEdit_camera_fps
        = s.ui.lineEdit_camera_fps ∧
      (onNewImageDisplay E s1 frame).state.mCameraThread = s.mCameraThread ∧
      (onNewImageDisplay E s1 frame).state.mCameraUndist.isSome = s.mCameraUndist.isSome := by
    intro s1 ⟨a, b, c, d, e, f⟩
    obtain ⟨_, k2, k3, k4, k5, k6, k7, _, _⟩ := onNewImageDisplay_keeps E s1 frame
    exact ⟨k2.trans a, k3.trans b, k4.trans c, k5.trans d, k6.trans e, k7.trans f⟩
  cases hc : s.ui.pushButton_calibrate.checked with
  | false =>
    rw [onNewImage_unchecked E s frame hc]
    exact disp _ base
  | true =>
    by_cases hz : toInt s.ui.lineEdit_camera_fps.text = 0
    · rw [onNewImage_zero E s frame hc hz]
      exact base
    · by_cases ho : wrap32 (s.frmCnt + 1) = -2147483648 ∧
          toInt s.ui.lineEdit_camera_fps.text = -1
      · rw [onNewImage_overflow E s frame hc hz ho]
        exact base
      · by_cases hm : Int.tmod (wrap32 (s.frmCnt + 1))
            (toInt s.ui.lineEdit_camera_fps.text) = 0
        · rw [onNewImage_submit E s frame hc hz ho hm]
          exact disp _ base
        · rw [onNewImage_skip E s frame hc hz ho hm]
          exact disp _ base

theorem onNewImage_noFault (E : Ext U T) (s : State U T) (frame : Mat)
    (hz : toInt s.ui.lineEdit_camera_fps.text ≠ 0)
    (ho : ¬ (wrap32 (s.frmCnt + 1) = -2147483648 ∧ toInt s.ui.lineEdit_camera_fps.text = -1))
    (hu : s.mCameraUndist.isSome = true) (ht : s.mCameraThread.isSome = true) :
    (onNewImage E s frame).fault = none := by
  have hu1 : (onNewImageCount s frame).mCameraUndist.isSome = true := by
    rw [onNewImageCount_undist]; exact hu
  have ht1 : (onNewImageCount s frame).mCameraThread.isSome = true := by
    rw [onNewImageCount_thread]; exact ht
  cases hc : s.ui.pushButton_calibrate.checked with
  | false =>
    rw [onNewImage_unchecked E s frame hc]
    exact onNewImageDisplay_ok E _ frame hu1 ht1
  | true =>
    by_cases hm : Int.tmod (wrap32 (s.frmCnt + 1))
        (toInt s.ui.lineEdit_camera_fps.text) = 0
    · rw [onNewImage_submit E s frame hc hz ho hm]
      exact onNewImageDisplay_ok E _ frame hu1 ht1
    · rw [onNewImage_skip E s frame hc hz ho hm]
      exact onNewImageDisplay_ok E _ frame hu1 ht1

theorem wrap32_id (x : Int) (h0 : -2147483648 ≤ x) (h1 : x < 2147483648) : wrap32 x = x := by
  unfold wrap32
  omega

theorem onNewImage_submitted (E : Ext U T) (s : State U T) (frame : Mat)
    (hfps : 0 < toInt s.ui.lineEdit_camera_fps.text) (hn : 1 ≤ wrap32 (s.frmCnt + 1)) :
    ∃ refit, submitted refit = [] ∧ (∀ t, Event.tryStart t ∉ refit) ∧
      (onNewImage E s frame).state.trace = s.trace ++ (refit ++
        (if s.ui.pushButton_calibrate.checked = true ∧
            wrap32 (s.frmCnt + 1) % toInt s.ui.lineEdit_camera_fps.text = 0
          then [Event.tryStart ⟨frame, s.mCbSize, s.mCbSizeMm⟩] else [])) := by
  obtain ⟨refit, h1, h2, h3⟩ := onNewImage_trace E s frame
  refine ⟨refit, h1, h2, ?_⟩
  rw [h3, Int.tmod_eq_emod (by omega) (by omega)]
  have hz : toInt s.ui.lineEdit_camera_fps.text ≠ 0 := by omega
  have ho : ¬ (wrap32 (s.frmCnt + 1) = -2147483648 ∧
      toInt s.ui.lineEdit_camera_fps.text = -1) := by omega
  simp only [hz, ho, ne_eq, not_false_eq_true, true_and]

theorem feed_submitted (E : Ext U T) (fps : Int) (hfps : 0 < fps) :
    ∀ (frames : List Mat) (s : State U T) (c : Nat),
      toInt s.ui.lineEdit_camera_fps.text = fps →
      s.frmCnt = (c : Int) → c + frames.length < 2147483648 →
      s.ui.pushButton_calibrate.checked = true →
      s.mCameraUndist.isSome = true → s.mCameraThread.isSome = true →
      (feed E s frames).fault = none ∧
      ∃ ext, (feed E s frames).state.trace = s.trace ++ ext ∧
        (submitted ext).map QChessboardElab.frame =
          ((frames.enumFrom c).filter
            (fun p => decide (((p.1 : Int) + 1) % fps = 0))).map Prod.snd := by
  intro frames
  induction frames with
  | nil =>
    intro s c _ _ _ _ _ _
    exact ⟨rfl, [], by simp [feed], rfl⟩
  | cons f fs ih =>
    intro s c hf hc hlen hchk hu ht
    have hw : wrap32 (s.frmCnt + 1) = (c : Int) + 1 := by
      rw [hc]
      simp only [List.length_cons] at hlen
      exact wrap32_id _ (by omega) (by omega)
    have hz : toInt s.ui.lineEdit_camera_fps.text ≠ 0 := by omega
    have ho : ¬ (wrap32 (s.frmCnt + 1) = -2147483648 ∧
        toInt s.ui.lineEdit_camera_fps.text = -1) := by omega
    have hnf := onNewImage_noFault E s f hz ho hu ht
    obtain ⟨k1, _, k3, k4, k5, k6⟩ := onNewImage_steady E s f
    obtain ⟨refit, r1, _, r3⟩ :=
      onNewImage_submitted E s f (by omega) (by omega)
    have hfeed : feed E s (f :: fs) = feed E (onNewImage E s f).state fs := by
      simp only [feed, hnf]
    obtain ⟨i1, ext, i2, i3⟩ := ih (onNewImage E s f).state (c + 1)
      (by rw [k4]; exact hf) (by rw [k1, hw]; push_cast; rfl)
      (by simp only [List.length_cons] at hlen; omega)
      (by rw [k3]; exact hchk) (by rw [k6]; exact hu) (by rw [k5]; exact ht)
    rw [hfeed]
    refine ⟨i1, _, by rw [i2, r3, List.append_assoc], ?_⟩
    rw [submitted_append, submitted_append, r1, List.nil_append, List.map_append, i3,
      List.enumFrom_cons, hw, hf]
    by_cases hm : ((c : Int) + 1) % fps = 0
    · rw [if_pos ⟨hchk, hm⟩, List.filter_cons, if_pos (decide_eq_true hm)]
      rfl
    · rw [if_neg (fun h => hm h.2), List.filter_cons,
        if_neg (by rw [decide_eq_false hm]; exact Bool.false_ne_true)]
      rfl

/-- C1: with a frame rate `fps > 0` in the fps field and `n ≥ 1` the value of the
frame counter right after `onNewImage` increments it, `onNewImage` hands a
`QChessboardElab` task (built from this frame and the board geometry) to
`mElabPool.tryStart` iff the calibrate button is checked and `n mod fps = 0`, and it
hands over no other task. Hence, in a run of frames that starts with the counter at 0
while calibration is armed, the frames submitted are exactly those whose position
(counted from 1) is a multiple of `fps`. -/
theorem C1_sampling_every_fps_th_frame (E : Ext U T) (s : State U T)
    (hfps : 0 < toInt s.ui.lineEdit_camera_fps.text) :
    (∀ frame : Mat, 1 ≤ wrap32 (s.frmCnt + 1) →
      (onNewImage E s frame).state.frmCnt = wrap32 (s.frmCnt + 1) ∧
      ((∃ t, Event.tryStart t ∈ newEvents s (onNewImage E s frame).state) ↔
        s.ui.pushButton_calibrate.checked = true ∧
        wrap32 (s.frmCnt + 1) % toInt s.ui.lineEdit_camera_fps.text = 0) ∧
      submitted (newEvents s (onNewImage E s frame).state) =
        (if s.ui.pushButton_calibrate.checked = true ∧
            wrap32 (s.frmCnt + 1) % toInt s.ui.lineEdit_camera_fps.text = 0
          then [⟨frame, s.mCbSize, s.mCbSizeMm⟩] else [])) ∧
    (∀ frames : List Mat, s.frmCnt = 0 → s.ui.pushButton_calibrate.checked = true →
      s.mCameraUndist.isSome = true → s.mCameraThread.isSome = true →
      frames.length < 2147483648 →
      (feed E s frames).fault = none ∧
      (submitted (newEvents s (feed E s frames).state)).map QChessboardElab.frame =
        (frames.enum.filter (fun p => decide (((p.1 : Int) + 1) %
          toInt s.ui.lineEdit_camera_fps.text = 0))).map Prod.snd) := by
  constructor
  · intro frame hn
    obtain ⟨refit, r1, r2, r3⟩ := onNewImage_submitted E s frame hfps hn
    have hne := newEvents_append s _ _ r3
    rw [hne]
    refine ⟨(onNewImage_steady E s frame).1, ?_, ?_⟩
    · by_cases hm : s.ui.pushButton_calibrate.checked = true ∧
          wrap32 (s.frmCnt + 1) % toInt s.ui.lineEdit_camera_fps.text = 0
      · rw [if_pos hm]
        exact ⟨fun _ => hm, fun _ => ⟨⟨frame, s.mCbSize, s.mCbSizeMm⟩, by simp⟩⟩
      · rw [if_neg hm, List.append_nil]
        exact ⟨fun ⟨t, ht⟩ => absurd ht (r2 t), fun h => absurd h hm⟩
    · rw [submitted_append, r1, List.nil_append]
      by_cases hm : s.ui.pushButton_calibrate.checked = true ∧
          wrap32 (s.frmCnt + 1) % toInt s.ui.lineEdit_camera_fps.text = 0
      · rw [if_pos hm, if_pos hm]; rfl
      · rw [if_neg hm, if_neg hm]; rfl
  · intro frames h0 hchk hu ht hlen
    obtain ⟨i1, ext, i2, i3⟩ := feed_submitted E _ hfps frames s 0 rfl
      (by rw [h0]; rfl) (by omega) hchk hu ht
    rw [newEvents_append s _ ext i2]
    exact ⟨i1, i3⟩

/-- Witness of C1: in the armed window with fps field "2" and the counter at 0, the
first frame is not submitted, and of three frames exactly the second one is. -/
theorem C1_witness :
    submitted (newEvents demoArmed (onNewImage demoExt demoArmed demoFrame).state) = [] ∧
    (submitted (newEvents demoArmed
      (feed demoExt demoArmed [demoFrame, ⟨1, 1, [7]⟩, demoFrame]).state)).map
        QChessboardElab.frame = [⟨1, 1, [7]⟩] :=
  ⟨((C1_sampling_every_fps_th_frame demoExt demoArmed (by decide)).1 demoFrame
      (by decide)).2.2,
   ((C1_sampling_every_fps_th_frame demoExt demoArmed (by decide)).2
      [demoFrame, ⟨1, 1, [7]⟩, demoFrame] rfl rfl rfl rfl (by decide)).2⟩

theorem onNewImageDisplay_engine (E : Ext U T) (s : State U T) (frame : Mat) (u : U)
    (hu : s.mCameraUndist = some u) :
    (onNewImageDisplay E s frame).state.mCameraUndist = some (E.undistort u frame).1 := by
  unfold onNewImageDisplay
  rw [hu]
  dsimp only
  cases hr : (E.undistort u frame).2.empty <;> cases ht : s.mCameraThread <;> simp [ht]

theorem onNewImage_view (E : Ext U T) (s : State U T) (frame : Mat) (u : U)
    (hu : s.mCameraUndist = some u)
    (hz : s.ui.pushButton_calibrate.checked = true →
      toInt s.ui.lineEdit_camera_fps.text ≠ 0 ∧
      ¬ (wrap32 (s.frmCnt + 1) = -2147483648 ∧ toInt s.ui.lineEdit_camera_fps.text = -1)) :
    (onNewImage E s frame).state.mCameraSceneUndistorted =
      some (if (E.undistort u frame).2.empty then frame else (E.undistort u frame).2) ∧
    (onNewImage E s frame).state.mCameraUndist = some (E.undistort u frame).1 := by
  have hu1 : (onNewImageCount s frame).mCameraUndist = some u := by
    rw [onNewImageCount_undist]; exact hu
  cases hc : s.ui.pushButton_calibrate.checked with
  | false =>
    rw [onNewImage_unchecked E s frame hc]
    exact ⟨onNewImageDisplay_view E _ frame u hu1, onNewImageDisplay_engine E _ frame u hu1⟩
  | true =>
    obtain ⟨hz1, ho⟩ := hz hc
    by_cases hm : Int.tmod (wrap32 (s.frmCnt + 1))
        (toInt s.ui.lineEdit_camera_fps.text) = 0
    · rw [onNewImage_submit E s frame hc hz1 ho hm]
      exact ⟨onNewImageDisplay_view E _ frame u hu1,
        onNewImageDisplay_engine E _ frame u hu1⟩
    · rw [onNewImage_skip E s frame hc hz1 ho hm]
      exact ⟨onNewImageDisplay_view E _ frame u hu1,
        onNewImageDisplay_engine E _ frame u hu1⟩

/-- C5: for every frame passed to `onNewImage` the raw view receives the frame
unchanged. Whenever the handler gets as far as the call of `undistort`, that is, an
engine `u` is present and, if the calibrate button is checked, the remainder by the
fps field can be taken (the field does not parse to 0, and the operands are not
`INT_MIN` and -1), the engine is called on this frame and the undistorted view is given
the raw frame when the result is empty and the rectified result of that call
otherwise; so, for a result that differs from the frame, the view shows the raw frame
iff the result is the empty sentinel. -/
theorem C5_undistorted_view_fallback (E : Ext U T) (s : State U T) (frame : Mat) :
    (onNewImage E s frame).state.mCameraSceneRaw = some frame ∧
    ∀ u : U, s.mCameraUndist = some u →
      (s.ui.pushButton_calibrate.checked = true →
        toInt s.ui.lineEdit_camera_fps.text ≠ 0 ∧
        ¬ (wrap32 (s.frmCnt + 1) = -2147483648 ∧
            toInt s.ui.lineEdit_camera_fps.text = -1)) →
      (onNewImage E s frame).state.mCameraSceneUndistorted =
        some (if (E.undistort u frame).2.empty then frame else (E.undistort u frame).2) ∧
      ((E.undistort u frame).2.empty = true →
        (onNewImage E s frame).state.mCameraSceneUndistorted = some frame) ∧
      ((E.undistort u frame).2.empty = false →
        (onNewImage E s frame).state.mCameraSceneUndistorted
          = some (E.undistort u frame).2) ∧
      ((E.undistort u frame).2 ≠ frame →
        ((onNewImage E s frame).state.mCameraSceneUndistorted = some frame ↔
          (E.undistort u frame).2.empty = true)) ∧
      (onNewImage E s frame).state.mCameraUndist = some (E.undistort u frame).1 := by
  refine ⟨(onNewImage_steady E s frame).2.1, ?_⟩
  intro u hu hz
  obtain ⟨hv, he⟩ := onNewImage_view E s frame u hu hz
  refine ⟨hv, ?_, ?_, ?_, he⟩
  · intro he; rw [hv, if_pos he]
  · intro he; rw [hv, if_neg (by rw [he]; exact Bool.false_ne_true)]
  · intro hne
    rw [hv]
    cases he : (E.undistort u frame).2.empty with
    | true => simp
    | false =>
      simp only [Bool.false_eq_true, if_false, iff_false]
      intro h
      exact hne (Option.some.inj h)

/-- Witness of C5: with the first demo engine (empty result) the undistorted view
shows the raw frame; with the second one, in the armed window, it shows the rectified
frame, which differs from the raw one. -/
theorem C5_witness :
    (onNewImage demoExt demoState demoFrame).state.mCameraSceneUndistorted
      = some demoFrame ∧
    (onNewImage demoExt2 demoArmed demoFrame).state.mCameraSceneUndistorted
      = some ⟨2, 2, [4, 3, 2, 1]⟩ :=
  ⟨((C5_undistorted_view_fallback demoExt demoState demoFrame).2 () rfl
      (by decide)).2.1 (by decide),
   ((C5_undistorted_view_fallback demoExt2 demoArmed demoFrame).2 () rfl
      (by decide)).2.2.1 (by decide)⟩

/-- C10: in `onNewImage` the remainder `frmCnt % fps` is evaluated only when the
calibrate button is checked, and `fps` is `toInt` of the fps field, which is 0 for
empty text and for every text that is not an integer; so the handler divides by zero
iff the button is checked and the field parses to 0, it is free of division by zero
for every frame iff calibration is not armed or `fps ≠ 0`, and the armed window with
an empty fps field is an input on which the modulo has a zero divisor. -/
theorem C10_modulo_zero_divisor (E : Ext U T) (s : State U T) :
    (∀ frame : Mat, (onNewImage E s frame).fault = some Fault.divByZero ↔
      s.ui.pushButton_calibrate.checked = true ∧ toInt s.ui.lineEdit_camera_fps.text = 0) ∧
    ((∀ frame : Mat, (onNewImage E s frame).fault ≠ some Fault.divByZero) ↔
      (s.ui.pushButton_calibrate.checked = false ∨
        toInt s.ui.lineEdit_camera_fps.text ≠ 0)) ∧
    toInt "" = 0 ∧ toInt "abc" = 0 ∧
    (∀ t : String, parseInt t.data = none → toInt t = 0) ∧
    (demoArmedNoFps.ui.pushButton_calibrate.checked = true ∧
      toInt demoArmedNoFps.ui.lineEdit_camera_fps.text = 0 ∧
      (onNewImage demoExt demoArmedNoFps demoFrame).fault = some Fault.divByZero) := by
  refine ⟨fun frame => onNewImage_divByZero_iff E s frame, ?_, by decide, by decide, ?_, ?_⟩
  · constructor
    · intro h
      have h1 := h ⟨0, 0, []⟩
      rw [ne_eq, onNewImage_divByZero_iff] at h1
      cases hc : s.ui.pushButton_calibrate.checked with
      | false => exact Or.inl rfl
      | true => exact Or.inr (fun hz => h1 ⟨hc, hz⟩)
    · intro h frame
      rw [ne_eq, onNewImage_divByZero_iff]
      rintro ⟨hc, hz⟩
      rcases h with h | h
      · rw [hc] at h; exact absurd h (by decide)
      · exact h hz
  · intro t ht
    simp [toInt, ht]
  · exact ⟨rfl, by decide, by decide⟩

/-- Witness of C10: the text "fps" is not an integer and parses to 0. -/
theorem C10_witness : toInt "fps" = 0 :=
  (C10_modulo_zero_divisor demoExt demoState).2.2.2.2.1 "fps" (by decide)

/-! ## Lemmas on connecting -/

theorem Extends.trans1 (p : Event → Bool) (s s1 s2 : State U T) (h1 : Extends p s s1)
    (h2 : Extends p s1 s2) : Extends p s s2 := by
  obtain ⟨e1, a1, b1⟩ := h1
  obtain ⟨e2, a2, b2⟩ := h2
  refine ⟨e1 ++ e2, by rw [a2, a1, List.append_assoc], ?_⟩
  intro e he
  rcases List.mem_append.mp he with h | h
  · exact b1 e h
  · exact b2 e h

theorem Extends.newEvents (p : Event → Bool) (s s1 : State U T) (h : Extends p s s1) :
    ∀ e ∈ newEvents s s1, p e = false := by
  obtain ⟨ext, a, b⟩ := h
  rw [newEvents_append s s1 ext a]
  exact b

theorem killGstLaunch_result_indep (checks : Nat → Bool) (s s1 : State U T) :
    (killGstLaunch checks s).1 = (killGstLaunch checks s1).1 := by
  have a := killGstLaunch_true_iff checks s
  have b := killGstLaunch_true_iff checks s1
  cases h2 : (killGstLaunch checks s1).1 with
  | true => exact a.mpr (b.mp h2)
  | false =>
    cases h1 : (killGstLaunch checks s).1 with
    | false => rfl
    | true => rw [b.mpr (a.mp h1)] at h2; exact absurd h2 (by decide)

theorem killGstLaunch_keeps (checks : Nat → Bool) (s : State U T) :
    (killGstLaunch checks s).2.mCameraThread = s.mCameraThread ∧
    (killGstLaunch checks s).2.mCamDev = s.mCamDev ∧
    (killGstLaunch checks s).2.ui = s.ui ∧
    Extends Event.isThread s (killGstLaunch checks s).2 ∧
    Extends Event.isGstStart s (killGstLaunch checks s).2 := by
  obtain ⟨rounds, ext, h1, h2, _⟩ := killGstLaunch_spec checks s
  rw [h1]
  exact ⟨rfl, rfl, rfl, ⟨ext, rfl, fun e he => (h2 e he).1⟩, ⟨ext, rfl, fun e he => (h2 e he).2⟩⟩

theorem startGstProcess_spec (started : Bool) (s : State U T) :
    ((startGstProcess started s).1 = false ↔ s.mCamDev.length = 0 ∨ started = false) ∧
    (startGstProcess started s).2.mCameraThread = s.mCameraThread ∧
    (startGstProcess started s).2.ui = s.ui ∧
    Extends Event.isThread s (startGstProcess started s).2 ∧
    (s.mCamDev.length = 0 → (startGstProcess started s).2 = s) := by
  unfold startGstProcess
  by_cases hd : s.mCamDev.length = 0
  · simp [hd, Extends]
  · cases started <;> simp [hd, Extends, Event.isThread]

theorem startCamera_fail (E : Ext U T) (checks : Nat → Bool) (started : Bool)
    (s : State U T)
    (h : (killGstLaunch checks s).1 = false ∨
      (startGstProcess started (killGstLaunch checks s).2).1 = false) :
    (startCamera E checks started s).1 = false ∧
    (startCamera E checks started s).2.mCameraThread = s.mCameraThread ∧
    (startCamera E checks started s).2.ui = s.ui ∧
    Extends Event.isThread s (startCamera E checks started s).2 := by
  obtain ⟨k1, _, k3, k4, _⟩ := killGstLaunch_keeps checks s
  obtain ⟨_, g2, g3, g4, _⟩ := startGstProcess_spec started (killGstLaunch checks s).2
  unfold startCamera
  cases hk : (killGstLaunch checks s).1 with
  | false =>
    simp only [hk, Bool.not_false, if_true]
    exact ⟨trivial, k1, k3, k4⟩
  | true =>
    have hg : (startGstProcess started (killGstLaunch checks s).2).1 = false := by
      rcases h with h | h
      · rw [hk] at h; exact absurd h (by decide)
      · exact h
    simp only [hk, hg, Bool.not_true, Bool.not_false, if_true, if_false, Bool.false_eq_true]
    exact ⟨trivial, g2.trans k1, g3.trans k3, Extends.trans1 _ _ _ _ k4 g4⟩

theorem startCamera_noDevice (E : Ext U T) (checks : Nat → Bool) (started : Bool)
    (s : State U T) (hd : s.mCamDev = "") :
    (startGstProcess started (killGstLaunch checks s).2).1 = false ∧
    Extends Event.isGstStart s (startCamera E checks started s).2 := by
  obtain ⟨_, k2, _, _, k5⟩ := killGstLaunch_keeps checks s
  obtain ⟨g1, _, _, _, g5⟩ := startGstProcess_spec started (killGstLaunch checks s).2
  have hlen : (killGstLaunch checks s).2.mCamDev.length = 0 := by rw [k2, hd]; rfl
  have hg := g1.mpr (Or.inl hlen)
  refine ⟨hg, ?_⟩
  unfold startCamera
  cases hk : (killGstLaunch checks s).1 with
  | false =>
    simp only [hk, Bool.not_false, if_true]
    exact k5
  | true =>
    simp only [hk, hg, Bool.not_true, Bool.not_false, if_true, if_false, Bool.false_eq_true]
    rw [g5 hlen]
    exact k5

theorem updateParamGUI_keeps (E : Ext U T) (s : State U T) :
    (updateParamGUI E s).mCameraThread = s.mCameraThread ∧
    (updateParamGUI E s).mCamDev = s.mCamDev ∧
    Extends Event.isThread s (updateParamGUI E s) := by
  refine ⟨?_, ?_, ⟨_, updateParamGUI_trace E s, ?_⟩⟩
  · unfold updateParamGUI
    dsimp only
    split <;> simp
  · unfold updateParamGUI
    dsimp only
    split <;> simp
  · intro e he
    cases hf : s.ui.checkBox_fisheye with
    | true =>
      rw [hf] at he
      simp at he
      rcases he with rfl | rfl | rfl | rfl <;> rfl
    | false =>
      rw [hf] at he
      simp at he
      rcases he with rfl | rfl | rfl | rfl | rfl | rfl | rfl | rfl <;> rfl

theorem connectPrepare_keeps (E : Ext U T) (s : State U T) :
    (connectPrepare E s).mCameraThread = s.mCameraThread ∧
    (connectPrepare E s).mCamDev = s.ui.comboBox_camera ∧
    Extends Event.isThread s (connectPrepare E s) := by
  unfold connectPrepare
  cases hu : s.mCameraUndist with
  | none =>
    simp only [updateCbParams, hu, State.emit]
    refine ⟨(updateParamGUI_keeps E _).1, (updateParamGUI_keeps E _).2.1, ?_⟩
    refine Extends.trans1 _ _ _ _ ?_ (updateParamGUI_keeps E _).2.2
    exact ⟨[Event.newCameraUndist, Event.connectSig Signal.newCameraParams], rfl, by
      intro e he; simp at he; rcases he with rfl | rfl <;> rfl⟩
  | some u =>
    simp only [updateCbParams, hu, State.emit]
    refine ⟨(updateParamGUI_keeps E _).1, (updateParamGUI_keeps E _).2.1, ?_⟩
    refine Extends.trans1 _ _ _ _ ?_ (updateParamGUI_keeps E _).2.2
    exact ⟨[Event.disconnectSig Signal.newCameraParams, Event.deleteCameraUndist,
      Event.newCameraUndist, Event.connectSig Signal.newCameraParams], by simp, by
      intro e he; simp at he; rcases he with rfl | rfl | rfl | rfl <;> rfl⟩

theorem connect_fail (E : Ext U T) (checks : Nat → Bool) (started : Bool) (s : State U T)
    (h : (killGstLaunch checks s).1 = false ∨ s.ui.comboBox_camera = "" ∨ started = false) :
    affordance (on_pushButton_camera_connect_disconnect_clicked E checks started true s)
      = ("Start Camera", false, true, true, true) ∧
    (on_pushButton_camera_connect_disconnect_clicked E checks started true s).mCameraThread
      = s.mCameraThread ∧
    Extends Event.isThread s
      (on_pushButton_camera_connect_disconnect_clicked E checks started true s) := by
  obtain ⟨p1, p2, p3⟩ := connectPrepare_keeps E s
  have hfail : (killGstLaunch checks (connectPrepare E s)).1 = false ∨
      (startGstProcess started (killGstLaunch checks (connectPrepare E s)).2).1 = false := by
    rcases h with h | h | h
    · left
      rw [killGstLaunch_result_indep checks (connectPrepare E s) s]
      exact h
    · right
      refine (startGstProcess_spec started _).1.mpr (Or.inl ?_)
      rw [(killGstLaunch_keeps checks _).2.1, p2, h]
      rfl
    · right
      exact (startGstProcess_spec started _).1.mpr (Or.inr h)
  obtain ⟨f1, f2, _, f4⟩ := startCamera_fail E checks started (connectPrepare E s) hfail
  unfold on_pushButton_camera_connect_disconnect_clicked
  simp only [if_true, f1, Bool.false_eq_true, if_false]
  refine ⟨rfl, f2.trans p1, ?_⟩
  obtain ⟨ext, a, b⟩ := Extends.trans1 _ _ _ _ p3 f4
  exact ⟨ext, a, b⟩

theorem disconnect_affordance (E : Ext U T) (checks : Nat → Bool) (started : Bool)
    (s : State U T) :
    affordance (on_pushButton_camera_connect_disconnect_clicked E checks started false s)
      = ("Start Camera", s.ui.pushButton_camera_connect_disconnect.checked,
          true, true, true) := by
  unfold on_pushButton_camera_connect_disconnect_clicked stopCamera
  simp only [Bool.false_eq_true, if_false]
  cases s.mCameraThread <;> rfl

/-- C4: whenever `killGstLaunch` returns false or `startGstProcess` returns false,
`startCamera` returns false, leaves `mCameraThread` unchanged and neither creates,
connects, starts nor deletes a `CameraThread`; an empty device name makes
`startGstProcess` return false without launching a process. The connect handler
called with `checked = true` under such a failure (prior instance not killed, empty
device name, or process not started) ends with the button text "Start Camera", the
button unchecked and the cols/rows/mm fields enabled, with `mCameraThread` unchanged
and no thread event, which is what the disconnect branch leaves for an unchecked
button. -/
theorem C4_failed_start_reverts (E : Ext U T) (checks : Nat → Bool) (started : Bool)
    (s : State U T) :
    ((killGstLaunch checks s).1 = false ∨
        (startGstProcess started (killGstLaunch checks s).2).1 = false →
      (startCamera E checks started s).1 = false ∧
      (startCamera E checks started s).2.mCameraThread = s.mCameraThread ∧
      ∀ e ∈ newEvents s (startCamera E checks started s).2, e.isThread = false) ∧
    (s.mCamDev = "" →
      (startGstProcess started (killGstLaunch checks s).2).1 = false ∧
      ∀ e ∈ newEvents s (startCamera E checks started s).2, e.isGstStart = false) ∧
    ((killGstLaunch checks s).1 = false ∨ s.ui.comboBox_camera = "" ∨ started = false →
      affordance (on_pushButton_camera_connect_disconnect_clicked E checks started true s)
        = ("Start Camera", false, true, true, true) ∧
      (on_pushButton_camera_connect_disconnect_clicked E checks started true s).mCameraThread
        = s.mCameraThread ∧
      (∀ e ∈ newEvents s
          (on_pushButton_camera_connect_disconnect_clicked E checks started true s),
        e.isThread = false) ∧
      ∀ s2 : State U T, s2.ui.pushButton_camera_connect_disconnect.checked = false →
        affordance (on_pushButton_camera_connect_disconnect_clicked E checks started false s2)
          = affordance
              (on_pushButton_camera_connect_disconnect_clicked E checks started true s)) := by
  refine ⟨?_, ?_, ?_⟩
  · intro h
    obtain ⟨a, b, _, d⟩ := startCamera_fail E checks started s h
    exact ⟨a, b, Extends.newEvents _ _ _ d⟩
  · intro hd
    obtain ⟨a, b⟩ := startCamera_noDevice E checks started s hd
    exact ⟨a, Extends.newEvents _ _ _ b⟩
  · intro h
    obtain ⟨a, b, c⟩ := connect_fail E checks started s h
    refine ⟨a, b, Extends.newEvents _ _ _ c, ?_⟩
    intro s2 h2
    rw [disconnect_affordance, a, h2]

/-- Witness of C4: a prior pipeline that never dies, and a form without a device. -/
theorem C4_witness :
    (startCamera demoExt (fun _ => false) true demoState).1 = false ∧
    (startGstProcess true (killGstLaunch (fun _ => true) demoState).2).1 = false ∧
    affordance (on_pushButton_camera_connect_disconnect_clicked demoExt (fun _ => true)
        false true demoState) = ("Start Camera", false, true, true, true) :=
  ⟨((C4_failed_start_reverts demoExt (fun _ => false) true demoState).1
      (Or.inl (by simp [killGstLaunch, killLoop]))).1,
   ((C4_failed_start_reverts demoExt (fun _ => true) true demoState).2.1 rfl).1,
   ((C4_failed_start_reverts demoExt (fun _ => true) false demoState).2.2
      (Or.inr (Or.inr rfl))).1⟩

end MainWindow
